import Mathlib

/-!
# Jennic JN5139 USB IEEE 802.15.4 driver (`drivers/ieee802154/jenusb.c`)

A shallow embedding of the frame codec (`to_skb`, `from_skb`), the transaction
engine (`__jenusb_post_req`), the MLME / data operations built on it, the
address ioctl and the indication pump (`jenusb_rx_work`), followed by theorems
about them.

Conventions of the embedding

* C integers are `Nat` (unsigned fields) or `Int` (`int` return values); a store
  into a narrower field reduces modulo the field width.
* The host is little-endian (the driver targets a PC USB host): `be16_to_cpu`,
  `cpu_to_be16` and `be64_to_cpu` swap bytes, a `u16` / `u64` store writes the
  least significant byte first, and GCC allocates the bit-fields of `struct fc`
  from the least significant bit of the first byte.
* Raw memory reached through a pointer is a function `Nat → Nat` from the byte
  offset to the byte stored there; the C code never consults a buffer length, so
  neither do the definitions.
* `jenusb.h` is not part of the sources: its numeric constants and `sizeof`
  values are the fields of `jenusb_h`, a parameter of every definition using them.
* Members of the C unions are kept as separate fields; a member that an
  operation does not write keeps an arbitrary value.
* A run that dereferences a pointer which was never assigned has no result: the
  function concerned returns an `Option`, and `none` stands for such a run.
-/

namespace Jenusb

/-! ## Linux constants (`errno.h`, `net/ieee802154.h`, `netdevice.h`) -/

def EINTR : Int := 4
def EIO : Int := 5
def ENOMEM : Int := 12
def EINVAL : Int := 22
def ENETDOWN : Int := 100
def ETIMEDOUT : Int := 110
def ENOTSUPP : Int := 524

def IEEE802154_ADDR_NONE : Nat := 0
def IEEE802154_ADDR_SHORT : Nat := 2
def IEEE802154_ADDR_LONG : Nat := 3
def IEEE802154_FC_TYPE_DATA : Nat := 1
def IEEE802154_PANID_BROADCAST : Nat := 0xffff
def IEEE802154_ADDR_UNDEF : Nat := 0xfffe

/-- The `#define RETRIES 5` of the driver. -/
def RETRIES : Nat := 5

/-! ## Constants of the missing header `jenusb.h` -/

/-- Numeric constants and structure sizes declared by `jenusb.h`. -/
structure jenusb_h where
  MAC_SAP_MLME : Nat
  MAC_SAP_MCPS : Nat
  MAC_MLME_REQ_ASSOCIATE : Nat
  MAC_MLME_REQ_DISASSOCIATE : Nat
  MAC_MLME_REQ_RESET : Nat
  MAC_MLME_REQ_SCAN : Nat
  MAC_MLME_REQ_SET : Nat
  MAC_MLME_REQ_START : Nat
  MAC_MCPS_REQ_DATA : Nat
  MAC_MLME_CFM_ERROR : Nat
  MAC_MCPS_CFM_ERROR : Nat
  MAC_PIB_ATTR_PAN_ID : Nat
  MAC_PIB_ATTR_SHORT_ADDRESS : Nat
  MAC_ENUM_TRANSACTION_OVERFLOW : Nat
  MAC_TX_OPTION_ACK : Nat
  MAC_TX_OPTION_SECURITY : Nat
  sizeof_MAC_MlmeReqSet_s : Nat
  sizeof_MAC_MlmeReqAssociate_s : Nat
  sizeof_MAC_MlmeReqDisassociate_s : Nat
  sizeof_MAC_MlmeReqStart_s : Nat
  sizeof_MAC_MlmeReqScan_s : Nat
  sizeof_MAC_MlmeReqReset_s : Nat
  sizeof_MAC_McpsReqData_s : Nat
  MAC_MCPS_DCFM_DATA : Nat
  MAC_MCPS_DCFM_PURGE : Nat
  MAC_MCPS_IND_DATA : Nat
  MAC_MLME_DCFM_SCAN : Nat
  MAC_MLME_DCFM_GTS : Nat
  MAC_MLME_DCFM_ASSOCIATE : Nat
  MAC_MLME_DCFM_DISASSOCIATE : Nat
  MAC_MLME_DCFM_POLL : Nat
  MAC_MLME_DCFM_RX_ENABLE : Nat
  MAC_MLME_IND_ASSOCIATE : Nat
  MAC_MLME_IND_DISASSOCIATE : Nat
  MAC_MLME_IND_SYNC_LOSS : Nat
  MAC_MLME_IND_GTS : Nat
  MAC_MLME_IND_BEACON_NOTIFY : Nat
  MAC_MLME_IND_COMM_STATUS : Nat
  MAC_MLME_IND_ORPHAN : Nat
  MAC_MLME_SCAN_TYPE_ENERGY_DETECT : Nat

/-- The values of the Jennic 802.15.4 stack API, used for concrete runs. -/
def jennic : jenusb_h where
  MAC_SAP_MLME := 0
  MAC_SAP_MCPS := 1
  MAC_MLME_REQ_ASSOCIATE := 0
  MAC_MLME_REQ_DISASSOCIATE := 1
  MAC_MLME_REQ_RESET := 4
  MAC_MLME_REQ_SCAN := 6
  MAC_MLME_REQ_SET := 7
  MAC_MLME_REQ_START := 8
  MAC_MCPS_REQ_DATA := 0
  MAC_MLME_CFM_ERROR := 1
  MAC_MCPS_CFM_ERROR := 1
  MAC_PIB_ATTR_PAN_ID := 0x50
  MAC_PIB_ATTR_SHORT_ADDRESS := 0x53
  MAC_ENUM_TRANSACTION_OVERFLOW := 0xF1
  MAC_TX_OPTION_ACK := 1
  MAC_TX_OPTION_SECURITY := 8
  sizeof_MAC_MlmeReqSet_s := 4
  sizeof_MAC_MlmeReqAssociate_s := 16
  sizeof_MAC_MlmeReqDisassociate_s := 14
  sizeof_MAC_MlmeReqStart_s := 8
  sizeof_MAC_MlmeReqScan_s := 8
  sizeof_MAC_MlmeReqReset_s := 1
  sizeof_MAC_McpsReqData_s := 144
  MAC_MCPS_DCFM_DATA := 0
  MAC_MCPS_DCFM_PURGE := 1
  MAC_MCPS_IND_DATA := 2
  MAC_MLME_DCFM_SCAN := 0
  MAC_MLME_DCFM_GTS := 1
  MAC_MLME_DCFM_ASSOCIATE := 2
  MAC_MLME_DCFM_DISASSOCIATE := 3
  MAC_MLME_DCFM_POLL := 4
  MAC_MLME_DCFM_RX_ENABLE := 5
  MAC_MLME_IND_ASSOCIATE := 6
  MAC_MLME_IND_DISASSOCIATE := 7
  MAC_MLME_IND_SYNC_LOSS := 8
  MAC_MLME_IND_GTS := 9
  MAC_MLME_IND_BEACON_NOTIFY := 10
  MAC_MLME_IND_COMM_STATUS := 11
  MAC_MLME_IND_ORPHAN := 12
  MAC_MLME_SCAN_TYPE_ENERGY_DETECT := 0

/-! ## Bytes and byte order (little-endian host) -/

/-- The byte at offset `p` of the memory `m`. -/
def byte (m : Nat → Nat) (p : Nat) : Nat := m p % 256

/-- Byte swap of a 16-bit value. -/
def swab16 (v : Nat) : Nat := (v % 256) * 256 + (v / 256) % 256

/-- Byte swap of a 64-bit value. -/
def swab64 (v : Nat) : Nat :=
  ((List.range 8).map (fun i => ((v / 256 ^ i) % 256) * 256 ^ (7 - i))).sum

def be16_to_cpu (v : Nat) : Nat := swab16 v
def cpu_to_be16 (v : Nat) : Nat := swab16 v
def be64_to_cpu (v : Nat) : Nat := swab64 v

/-- The two bytes a `*(u16*)ptr = v` store writes, in address order. -/
def store_u16 (v : Nat) : List Nat := [v % 256, (v / 256) % 256]

/-- The eight bytes a `*(u64*)ptr = v` store writes, in address order. -/
def store_u64 (v : Nat) : List Nat := (List.range 8).map (fun i => (v / 256 ^ i) % 256)

/-- The value `*(u16*)(m + p)`. -/
def load_u16 (m : Nat → Nat) (p : Nat) : Nat := byte m p + 256 * byte m (p + 1)

/-- The value `*(u64*)(m + p)`; also the content of an 8-byte field filled by
`memcpy(field, m + p, 8)`. -/
def load_u64 (m : Nat → Nat) (p : Nat) : Nat :=
  ((List.range 8).map (fun i => byte m (p + i) * 256 ^ i)).sum

/-- Memory holding the bytes `bs` from offset 0, followed by whatever `rest`
holds (the memory behind the buffer). -/
def mem_of (bs : List Nat) (rest : Nat → Nat) : Nat → Nat :=
  fun i => if i < bs.length then bs.getD i 0 else rest (i - bs.length)

/-! ## Frame control field -/

/-- The packed bit-field `struct fc`. -/
structure fc where
  frame_type : Nat
  sec_enable : Nat
  fr_pending : Nat
  ack_required : Nat
  intra_pan : Nat
  reserved : Nat
  da_addr_mode : Nat
  reserved2 : Nat
  sa_addr_mode : Nat
deriving DecidableEq, Repr

/-- Reading `struct fc` through a pointer to the two bytes `b0 b1`. -/
def fc.load (b0 b1 : Nat) : fc where
  frame_type := b0 % 8
  sec_enable := (b0 / 8) % 2
  fr_pending := (b0 / 16) % 2
  ack_required := (b0 / 32) % 2
  intra_pan := (b0 / 64) % 2
  reserved := (b0 / 128) % 2 + 2 * (b1 % 4)
  da_addr_mode := (b1 / 4) % 4
  reserved2 := (b1 / 16) % 4
  sa_addr_mode := (b1 / 64) % 4

/-- The two bytes holding a `struct fc`; each field is cut to its width. -/
def fc.store (f : fc) : List Nat :=
  [ f.frame_type % 8 + 8 * (f.sec_enable % 2) + 16 * (f.fr_pending % 2)
      + 32 * (f.ack_required % 2) + 64 * (f.intra_pan % 2) + 128 * (f.reserved % 2),
    (f.reserved / 2) % 4 + 4 * (f.da_addr_mode % 4) + 16 * (f.reserved2 % 4)
      + 64 * (f.sa_addr_mode % 4) ]

/-- The value of `sizeof(struct fc)`. -/
def sizeof_fc : Int := 2

/-- The value of `sizeof(seq)` for `u8 seq`. -/
def sizeof_seq : Int := 1

/-! ## Native frames -/

/-- The address `MAC_Addr_s`; `sExt` is the 8-byte extended address read as a
host `u64`. -/
structure MAC_Addr_s where
  u8AddrMode : Nat
  u16PanId : Nat
  u16Short : Nat
  sExt : Nat
deriving DecidableEq, Repr

/-- The received native frame `MAC_RxFrameData_s`. -/
structure MAC_RxFrameData_s where
  sDstAddr : MAC_Addr_s
  sSrcAddr : MAC_Addr_s
  u8SecurityUse : Nat
  u8SduLength : Nat
  au8Sdu : Nat → Nat

/-- The native frame to send, `MAC_TxFrameData_s`. -/
structure MAC_TxFrameData_s where
  sDstAddr : MAC_Addr_s
  sSrcAddr : MAC_Addr_s
  u8TxOptions : Nat
  u8SduLength : Nat
  au8Sdu : Nat → Nat

/-! ## Codec: native frame to MPDU -/

/-- The function `addr_len`: the `default` arm only logs and falls out of the
switch to the final `return 0`. -/
def addr_len (a : MAC_Addr_s) : Int :=
  if a.u8AddrMode = IEEE802154_ADDR_SHORT then 2
  else if a.u8AddrMode = IEEE802154_ADDR_LONG then 8
  else if a.u8AddrMode = IEEE802154_ADDR_NONE then 0
  else 0

/-- The bytes the first `switch` of `to_skb` stores at `ptr` (the pointer then
advances by their number). -/
def to_skb_dst (frame : MAC_RxFrameData_s) : List Nat :=
  if frame.sDstAddr.u8AddrMode = IEEE802154_ADDR_NONE then []
  else if frame.sDstAddr.u8AddrMode = IEEE802154_ADDR_SHORT then
    store_u16 (be16_to_cpu frame.sDstAddr.u16PanId)
      ++ store_u16 (be16_to_cpu frame.sDstAddr.u16Short)
  else if frame.sDstAddr.u8AddrMode = IEEE802154_ADDR_LONG then
    store_u16 (be16_to_cpu frame.sDstAddr.u16PanId)
      ++ store_u64 (be64_to_cpu frame.sDstAddr.sExt)
  else []

/-- The bytes the second `switch` of `to_skb` stores at `ptr`. -/
def to_skb_src (frame : MAC_RxFrameData_s) (isintrapan : Bool) : List Nat :=
  if frame.sSrcAddr.u8AddrMode = IEEE802154_ADDR_NONE then []
  else if frame.sSrcAddr.u8AddrMode = IEEE802154_ADDR_SHORT then
    if isintrapan then
      store_u16 (be16_to_cpu frame.sSrcAddr.u16Short)
    else
      store_u16 (be16_to_cpu frame.sSrcAddr.u16PanId)
        ++ store_u16 (be16_to_cpu frame.sSrcAddr.u16Short)
  else if frame.sSrcAddr.u8AddrMode = IEEE802154_ADDR_LONG then
    store_u16 (be16_to_cpu frame.sSrcAddr.u16PanId)
      ++ store_u64 (be64_to_cpu frame.sSrcAddr.sExt)
  else []

/-- The frame control field after the seven bit-field assignments of `to_skb`
to the fresh buffer memory `m`; the reserved bits keep what `m` held. -/
def to_skb_fc (frame : MAC_RxFrameData_s) (isintrapan : Bool) (m : Nat → Nat) : fc :=
  { fc.load (byte m 0) (byte m 1) with
    frame_type := IEEE802154_FC_TYPE_DATA
    sec_enable := frame.u8SecurityUse
    fr_pending := 0
    intra_pan := if isintrapan then 1 else 0
    ack_required := 0
    da_addr_mode := frame.sDstAddr.u8AddrMode
    sa_addr_mode := frame.sSrcAddr.u8AddrMode }

/-- What `to_skb` hands back: the `int` it returns, and the bytes it stored
from `skb->data` on, in address order (empty when it returns before storing). -/
structure to_skb_result where
  retval : Int
  data : List Nat
deriving DecidableEq, Repr

/-- The MPDU `to_skb` hands on: `skb_put(skb, len)` makes the buffer `len`
bytes long, `len` being the value returned, so the MPDU is the first `len` of
the bytes stored from `skb->data` on; what is stored behind them lies outside
the buffer. -/
def to_skb_result.mpdu (r : to_skb_result) : List Nat := r.data.take r.retval.toNat

/-- The function `to_skb`. Its parameter `skb` is overwritten by
`dev_alloc_skb(len)` before any use, so the embedding takes the outcome of that
call instead: `skb_mem` is `none` when the allocation fails, else the
(uninitialised) content of the new buffer. -/
def to_skb (frame : MAC_RxFrameData_s) (skb_mem : Option (Nat → Nat)) : to_skb_result :=
  let len : Int := frame.u8SduLength
  if addr_len frame.sDstAddr < 0 ∨ addr_len frame.sSrcAddr < 0 then
    ⟨- EINVAL, []⟩
  else
    let len := len + sizeof_fc
    let len := len + sizeof_seq
    let len := len + addr_len frame.sDstAddr
    let len := len + addr_len frame.sSrcAddr
    match skb_mem with
    | none => ⟨- ENOMEM, []⟩
    | some m =>
      let isintrapan : Bool := frame.sDstAddr.u16PanId == frame.sSrcAddr.u16PanId
      ⟨len, (to_skb_fc frame isintrapan m).store ++ [0]
              ++ to_skb_dst frame ++ to_skb_src frame isintrapan
              ++ (List.range frame.u8SduLength).map (fun i => byte frame.au8Sdu i)⟩

/-! ## Codec: MPDU to native frame -/

/-- The function `from_skb`, reading the MPDU at `data` (`skb->data`) into
`frame`; it returns the `int` result together with the frame as it leaves it.
The second `switch` inspects `fcf->da_addr_mode`, as in the source, and
`frame->u8SduLength` is read but never assigned. -/
def from_skb (h : jenusb_h) (data : Nat → Nat) (frame : MAC_TxFrameData_s) :
    Int × MAC_TxFrameData_s :=
  let fcf := fc.load (byte data 0) (byte data 1)
  if fcf.frame_type ≠ IEEE802154_FC_TYPE_DATA then (- ENOTSUPP, frame)
  else if fcf.da_addr_mode = IEEE802154_ADDR_NONE ∧ fcf.sa_addr_mode = IEEE802154_ADDR_NONE then
    (- EINVAL, frame)
  else
    let frame := { frame with
      u8TxOptions := (if fcf.ack_required ≠ 0 then h.MAC_TX_OPTION_ACK else 0) }
    let frame := { frame with
      u8TxOptions := frame.u8TxOptions ||| (if fcf.sec_enable ≠ 0 then h.MAC_TX_OPTION_SECURITY else 0) }
    let ptr := 2
    let ptr := ptr + 1
    let frame := { frame with sDstAddr.u8AddrMode := fcf.da_addr_mode }
    let dst : Option (MAC_TxFrameData_s × Nat) :=
      if fcf.da_addr_mode = IEEE802154_ADDR_NONE then some (frame, ptr)
      else if fcf.da_addr_mode = IEEE802154_ADDR_SHORT then
        some ({ frame with
                sDstAddr.u16PanId := cpu_to_be16 (load_u16 data ptr)
                sDstAddr.u16Short := cpu_to_be16 (load_u16 data (ptr + 2)) }, ptr + 4)
      else if fcf.da_addr_mode = IEEE802154_ADDR_LONG then
        some ({ frame with
                sDstAddr.u16PanId := cpu_to_be16 (load_u16 data ptr)
                sDstAddr.sExt := load_u64 data (ptr + 2) }, ptr + 10)
      else none
    match dst with
    | none => (- EINVAL, frame)
    | some (frame, ptr) =>
      let frame := { frame with sSrcAddr.u8AddrMode := fcf.sa_addr_mode }
      let src : Option (MAC_TxFrameData_s × Nat) :=
        if fcf.da_addr_mode = IEEE802154_ADDR_NONE then some (frame, ptr)
        else if fcf.da_addr_mode = IEEE802154_ADDR_SHORT then
          some ({ frame with
                  sSrcAddr.u16PanId := cpu_to_be16 (load_u16 data ptr)
                  sSrcAddr.u16Short := cpu_to_be16 (load_u16 data (ptr + 2)) }, ptr + 4)
        else if fcf.da_addr_mode = IEEE802154_ADDR_LONG then
          some ({ frame with
                  sSrcAddr.u16PanId := cpu_to_be16 (load_u16 data ptr)
                  sSrcAddr.sExt := load_u64 data (ptr + 2) }, ptr + 10)
        else none
      match src with
      | none => (- EINVAL, frame)
      | some (frame, ptr) =>
        let frame := { frame with
          au8Sdu := fun i => if i < frame.u8SduLength then byte data (ptr + i) else frame.au8Sdu i }
        (frame.u8SduLength, frame)

/-! ## Requests and confirmations (`jenusb.h`) -/

structure MAC_MlmeReqSet_s where
  u8PibAttribute : Nat
  u8PibAttributeIndex : Nat
  u16PanId : Nat
  u16ShortAddr : Nat

structure MAC_MlmeReqAssociate_s where
  sCoord : MAC_Addr_s
  u8LogicalChan : Nat
  u8Capability : Nat
  u8SecurityEnable : Nat

structure MAC_MlmeReqDisassociate_s where
  sAddr : MAC_Addr_s
  u8Reason : Nat
  u8SecurityEnable : Nat

structure MAC_MlmeReqStart_s where
  u16PanId : Nat
  u8Channel : Nat
  u8BeaconOrder : Nat
  u8SuperframeOrder : Nat
  u8PanCoordinator : Nat
  u8BatteryLifeExt : Nat
  u8Realignment : Nat

structure MAC_MlmeReqScan_s where
  u32ScanChannels : Nat
  u8ScanType : Nat
  u8ScanDuration : Nat

structure MAC_MlmeReqReset_s where
  u8SetDefaultPib : Nat

/-- The member `mlme` of a request. -/
structure MAC_MlmeReqRsp_s where
  u8Type : Nat
  u8ParamLength : Nat
  sReqSet : MAC_MlmeReqSet_s
  sReqAssociate : MAC_MlmeReqAssociate_s
  sReqDisassociate : MAC_MlmeReqDisassociate_s
  sReqStart : MAC_MlmeReqStart_s
  sReqScan : MAC_MlmeReqScan_s
  sReqReset : MAC_MlmeReqReset_s

structure MAC_McpsReqData_s where
  u8Handle : Nat
  sFrame : MAC_TxFrameData_s

/-- The member `mcps` of a request. -/
structure MAC_McpsReqRsp_s where
  u8Type : Nat
  u8ParamLength : Nat
  sReqData : MAC_McpsReqData_s

/-- The request buffer `jenusb_req`: a top-level tag and the two members. -/
structure jenusb_req where
  type : Nat
  mlme : MAC_MlmeReqRsp_s
  mcps : MAC_McpsReqRsp_s

/-- The member `mlme` of a confirmation, as far as the driver reads it. -/
structure MAC_MlmeSyncCfm_s where
  u8Status : Nat
deriving DecidableEq, Repr

structure MAC_McpsCfmData_s where
  u8Status : Nat
deriving DecidableEq, Repr

/-- The member `mcps` of a confirmation. -/
structure MAC_McpsSyncCfm_s where
  u8Status : Nat
  sCfmData : MAC_McpsCfmData_s
deriving DecidableEq, Repr

/-- The confirm buffer `jenusb_cfm`. -/
structure jenusb_cfm where
  type : Nat
  /-- Modelled from the spec: `jenusb.h` is missing and the driver never reads a
  sub-opcode of a confirmation; the spec's Confirmation mirrors the request's
  sub-opcode, which this field holds. -/
  u8Type : Nat
  mlme : MAC_MlmeSyncCfm_s
  mcps : MAC_McpsSyncCfm_s
deriving DecidableEq, Repr

/-- The sub-opcode of a request: `u8Type` of the member its tag selects. -/
def jenusb_req.subop (h : jenusb_h) (req : jenusb_req) : Nat :=
  if req.type = h.MAC_SAP_MCPS then req.mcps.u8Type else req.mlme.u8Type

/-- The address `struct ieee802154_addr` of the Linux stack; `hwaddr` is the
8-byte array read as a host `u64`. In C `hwaddr` and `short_addr` are the two
members of one union: the two fields here are the two views of that memory, and
a store through one of them goes through `store_short` or `store_hwaddr`, which
keeps the other view in step. -/
structure ieee802154_addr where
  addr_type : Nat
  pan_id : Nat
  hwaddr : Nat
  short_addr : Nat
deriving DecidableEq, Repr

/-- The store `memcpy(a.hwaddr, &v, 8)`: all eight bytes of the union change. -/
def ieee802154_addr.store_hwaddr (a : ieee802154_addr) (v : Nat) : ieee802154_addr :=
  { a with hwaddr := v, short_addr := v % 65536 }

/-! ## Indications (`jenusb.h`) and what is handed to the Linux stack -/

structure MAC_McpsIndData_s where
  sFrame : MAC_RxFrameData_s

/-- The member `mcps` of an indication. -/
structure MAC_McpsDcfmInd_s where
  u8Type : Nat
  sIndData : MAC_McpsIndData_s

structure MAC_MlmeCfmScan_s where
  u8Status : Nat
  u8ScanType : Nat
  u32UnscannedChannels : Nat
  au8EnergyDetect : Nat → Nat

structure MAC_MlmeCfmAssociate_s where
  u16AssocShortAddr : Nat
  u8Status : Nat

structure MAC_MlmeCfmDisassociate_s where
  u8Status : Nat

structure MAC_MlmeIndAssociate_s where
  sDeviceAddr : Nat
  u8Capability : Nat

structure MAC_MlmeIndDisassociate_s where
  sDeviceAddr : Nat
  u8Reason : Nat

structure MAC_PanDescr_s where
  sCoord : MAC_Addr_s

structure MAC_MlmeIndBeacon_s where
  sPANdescriptor : MAC_PanDescr_s

/-- The member `mlme` of an indication, as far as the driver reads it. -/
structure MAC_MlmeDcfmInd_s where
  u8Type : Nat
  sDcfmScan : MAC_MlmeCfmScan_s
  sDcfmAssociate : MAC_MlmeCfmAssociate_s
  sDcfmDisassociate : MAC_MlmeCfmDisassociate_s
  sIndAssociate : MAC_MlmeIndAssociate_s
  sIndDisassociate : MAC_MlmeIndDisassociate_s
  sIndBeacon : MAC_MlmeIndBeacon_s

/-- The indication buffer `struct jenusb_ind`. -/
structure jenusb_ind where
  type : Nat
  mcps : MAC_McpsDcfmInd_s
  mlme : MAC_MlmeDcfmInd_s

/-- A call of one of the `ieee802154_nl_*` notification functions of the Linux
stack, with its arguments (`edl` is the energy-detect list pointer, `none` for
`NULL`). -/
inductive nl_call where
  | scan_confirm (status scan_type unscanned page : Nat) (edl : Option (Nat → Nat))
  | assoc_confirm (short_addr status : Nat)
  | disassoc_confirm (status : Nat)
  | assoc_indic (addr : ieee802154_addr) (cap : Nat)
  | disassoc_indic (addr : ieee802154_addr) (reason : Nat)
  | beacon_indic (panid coord_addr : Nat)

/-- Everything outside the driver that decides how a call goes. -/
structure Env where
  /-- The kernel tick rate `HZ`. -/
  HZ : Nat
  /-- Result of the n-th `mutex_lock_interruptible` on the transaction mutex:
  `0` when the mutex was obtained, else the error. -/
  lock_result : Nat → Int
  /-- Result of `usb_bulk_msg` on `dev->out`, given the requests submitted
  before and the request submitted now. -/
  bulk_out : List jenusb_req → jenusb_req → Int
  /-- Result of the n-th `usb_interrupt_msg` on `dev->in_cfm`, given the
  requests submitted so far and the present content of the confirm buffer: the
  return value and the buffer content afterwards. -/
  intr_in : List jenusb_req → Nat → jenusb_cfm → Int × jenusb_cfm
  /-- Whether `kmalloc` in `jenusb_work_alloc` yields memory. -/
  work_alloc : Bool
  /-- Result of the n-th `usb_bulk_msg` on `dev->in`, given the present content
  of the indication buffer: the return value, the length stored in `len` and
  the buffer content afterwards. -/
  bulk_in : Nat → jenusb_ind → Int × Nat × jenusb_ind
  /-- Outcome of `dev_alloc_skb` in `to_skb` on the receive path: `none` when
  it fails, else the content of the new buffer. -/
  rx_skb_mem : Option (Nat → Nat)
  /-- Result of the n-th call of an `ieee802154_nl_*` function. -/
  nl_result : Nat → Int
  /-- What the uninitialised local `addr` of `jenusb_mlme_ind` holds. -/
  stack_addr : ieee802154_addr

/-- The per-device state `struct jenusb`, the fields of its `net_device` the
driver touches, and a trace of what the driver did to its surroundings. -/
structure jenusb where
  /-- The mutex `transaction`: `true` while held. -/
  transaction : Bool
  req : jenusb_req
  cfm : jenusb_cfm
  running : Bool
  panid : Nat
  shortaddr : Nat
  /-- The state set by `netif_stop_queue` and cleared by `netif_start_queue`. -/
  queue_stopped : Bool
  tx_packets : Nat
  tx_bytes : Nat
  tx_dropped : Nat
  /-- Trace: number of `mutex_lock_interruptible` calls so far. -/
  lock_calls : Nat
  /-- Trace: number of `mutex_unlock` calls made while the mutex was not held. -/
  unlock_unheld : Nat
  /-- Trace: the requests submitted on `dev->out`, oldest first. -/
  out_log : List jenusb_req
  /-- Trace: number of reads issued on `dev->in_cfm`. -/
  cfm_reads : Nat
  /-- Trace: sum of the timeouts passed to those reads. -/
  cfm_wait : Nat
  /-- Trace: number of `queue_delayed_work` calls scheduling `jenusb_rx_work`. -/
  rx_work_queued : Nat
  rx_dropped : Nat
  /-- Trace: number of reads issued on `dev->in`. -/
  in_reads : Nat
  /-- Trace: the notification calls made, oldest first. -/
  nl_log : List nl_call

def mutex_lock_interruptible (e : Env) (dev : jenusb) : Int × jenusb :=
  let r := e.lock_result dev.lock_calls
  (r, { dev with
        lock_calls := dev.lock_calls + 1
        transaction := if r = 0 then true else dev.transaction })

def mutex_unlock (dev : jenusb) : jenusb :=
  { dev with
    transaction := false
    unlock_unheld := if dev.transaction then dev.unlock_unheld else dev.unlock_unheld + 1 }

/-! ## Transaction engine -/

/-- The function `__jenusb_chk_err`; its third argument is only printed. -/
def __jenusb_chk_err (h : jenusb_h) (cfm : jenusb_cfm) : Bool :=
  if cfm.mlme.u8Status = h.MAC_MLME_CFM_ERROR then true else false

/-- One `usb_interrupt_msg(dev->udev, dev->in_cfm, cfm, sizeof(*cfm), &len,
HZ/2/RETRIES)`. -/
def cfm_read (e : Env) (dev : jenusb) : Int × jenusb :=
  let r := e.intr_in dev.out_log dev.cfm_reads dev.cfm
  (r.1, { dev with
          cfm := r.2
          cfm_reads := dev.cfm_reads + 1
          cfm_wait := dev.cfm_wait + e.HZ / 2 / RETRIES })

/-- The loop `do { retval = usb_interrupt_msg(...); } while (retval ==
-ETIMEDOUT && i++ < RETRIES);`. The argument counts down where `i` counts up:
it is `RETRIES - i`, so the test `i++ < RETRIES` holds exactly while it is
positive, and the loop is entered with `RETRIES` (`i = 0`). -/
def cfm_loop (e : Env) : Nat → jenusb → Int × jenusb
  | 0, dev => cfm_read e dev
  | left + 1, dev =>
    let r := cfm_read e dev
    if r.1 = - ETIMEDOUT then cfm_loop e left r.2 else r

/-- The function `__jenusb_post_req`, called with `req = &dev->req` and
`cfm = &dev->cfm` as at every call site. -/
def __jenusb_post_req (e : Env) (dev : jenusb) : Int × jenusb :=
  if dev.running = false then (- ENETDOWN, dev)
  else
    let retval := e.bulk_out dev.out_log dev.req
    let dev := { dev with out_log := dev.out_log ++ [dev.req] }
    if retval ≠ 0 then (retval, dev)
    else
      let r := cfm_loop e RETRIES dev
      if r.1 ≠ 0 then r
      else if r.2.cfm.type ≠ r.2.req.type then (- EIO, r.2)
      else r

/-! ## MLME operations -/

/-- Byte swap of a 32-bit value. -/
def swab32 (v : Nat) : Nat :=
  ((List.range 4).map (fun i => ((v / 256 ^ i) % 256) * 256 ^ (3 - i))).sum

def cpu_to_be32 (v : Nat) : Nat := swab32 v

/-- The function `ieee802154_addr_to_jenusb`; `none` is the `NULL` pointer. -/
def ieee802154_addr_to_jenusb (a : Option ieee802154_addr) (b : MAC_Addr_s) : MAC_Addr_s :=
  match a with
  | none =>
    { b with
      u8AddrMode := IEEE802154_ADDR_SHORT
      u16PanId := IEEE802154_PANID_BROADCAST
      u16Short := cpu_to_be16 IEEE802154_ADDR_UNDEF }
  | some a =>
    let b := { b with u8AddrMode := a.addr_type, u16PanId := cpu_to_be16 a.pan_id }
    if a.addr_type = IEEE802154_ADDR_SHORT then { b with u16Short := cpu_to_be16 a.short_addr }
    else if a.addr_type = IEEE802154_ADDR_LONG then { b with sExt := a.hwaddr }
    else if a.addr_type = IEEE802154_ADDR_NONE then
      { b with u16Short := cpu_to_be16 IEEE802154_ADDR_UNDEF }
    else b

def jenusb_get_pan_id (dev : jenusb) : Nat := dev.panid

def jenusb_get_short_addr (dev : jenusb) : Nat := dev.shortaddr

/-- The assignments by which `jenusb_set_panid` fills the request buffer. -/
def jenusb_set_panid_fill (h : jenusb_h) (dev : jenusb) (panid : Nat) : jenusb :=
  { dev with
    req.type := h.MAC_SAP_MLME
    req.mlme.u8Type := h.MAC_MLME_REQ_SET
    req.mlme.u8ParamLength := h.sizeof_MAC_MlmeReqSet_s
    req.mlme.sReqSet.u8PibAttribute := h.MAC_PIB_ATTR_PAN_ID
    req.mlme.sReqSet.u8PibAttributeIndex := 0
    req.mlme.sReqSet.u16PanId := panid }

/-- The function `jenusb_set_panid`: the confirm buffer is tested whatever
`jenusb_post_req` returned, and the return value is that of `jenusb_post_req`. -/
def jenusb_set_panid (h : jenusb_h) (e : Env) (dev : jenusb) (panid : Nat) : Int × jenusb :=
  let l := mutex_lock_interruptible e dev
  if l.1 ≠ 0 then l
  else
    let dev := jenusb_set_panid_fill h l.2 panid
    let p := __jenusb_post_req e dev
    let retval := p.1
    let dev := p.2
    let dev := if __jenusb_chk_err h dev.cfm = false then { dev with panid := panid } else dev
    (retval, mutex_unlock dev)

/-- The assignments by which `jenusb_set_short_addr` fills the request buffer. -/
def jenusb_set_short_addr_fill (h : jenusb_h) (dev : jenusb) (short_addr : Nat) : jenusb :=
  { dev with
    req.type := h.MAC_SAP_MLME
    req.mlme.u8Type := h.MAC_MLME_REQ_SET
    req.mlme.u8ParamLength := h.sizeof_MAC_MlmeReqSet_s
    req.mlme.sReqSet.u8PibAttribute := h.MAC_PIB_ATTR_SHORT_ADDRESS
    req.mlme.sReqSet.u8PibAttributeIndex := 0
    req.mlme.sReqSet.u16ShortAddr := short_addr }

/-- The function `jenusb_set_short_addr`. -/
def jenusb_set_short_addr (h : jenusb_h) (e : Env) (dev : jenusb) (short_addr : Nat) :
    Int × jenusb :=
  let l := mutex_lock_interruptible e dev
  if l.1 ≠ 0 then l
  else
    let dev := jenusb_set_short_addr_fill h l.2 short_addr
    let p := __jenusb_post_req e dev
    let retval := p.1
    let dev := p.2
    let dev := if __jenusb_chk_err h dev.cfm = false then { dev with shortaddr := short_addr } else dev
    (retval, mutex_unlock dev)

/-- The assignments by which `jenusb_assoc_req` fills the request buffer. -/
def jenusb_assoc_req_fill (h : jenusb_h) (dev : jenusb) (coord : Option ieee802154_addr)
    (channel cap : Nat) : jenusb :=
  { dev with
    req.type := h.MAC_SAP_MLME
    req.mlme.u8Type := h.MAC_MLME_REQ_ASSOCIATE
    req.mlme.u8ParamLength := h.sizeof_MAC_MlmeReqAssociate_s
    req.mlme.sReqAssociate.sCoord :=
      ieee802154_addr_to_jenusb coord dev.req.mlme.sReqAssociate.sCoord
    req.mlme.sReqAssociate.u8LogicalChan := channel
    req.mlme.sReqAssociate.u8Capability := cap
    req.mlme.sReqAssociate.u8SecurityEnable := 0 }

/-- The function `jenusb_assoc_req`; the local `shortaddr` it computes is
never used and is left out. -/
def jenusb_assoc_req (h : jenusb_h) (e : Env) (dev : jenusb) (coord : Option ieee802154_addr)
    (channel _page cap : Nat) : Int × jenusb :=
  let l := mutex_lock_interruptible e dev
  if l.1 ≠ 0 then l
  else
    let dev := jenusb_assoc_req_fill h l.2 coord channel cap
    let p := __jenusb_post_req e dev
    let retval := p.1
    let dev := p.2
    let retval :=
      if retval ≠ 0 then retval
      else if __jenusb_chk_err h dev.cfm then - EIO
      else retval
    (retval, mutex_unlock dev)

/-- The assignments by which `jenusb_disassoc_req` fills the request buffer. -/
def jenusb_disassoc_req_fill (h : jenusb_h) (dev : jenusb) (addr : Option ieee802154_addr)
    (reason : Nat) : jenusb :=
  { dev with
    req.type := h.MAC_SAP_MLME
    req.mlme.u8Type := h.MAC_MLME_REQ_DISASSOCIATE
    req.mlme.u8ParamLength := h.sizeof_MAC_MlmeReqDisassociate_s
    req.mlme.sReqDisassociate.sAddr :=
      ieee802154_addr_to_jenusb addr dev.req.mlme.sReqDisassociate.sAddr
    req.mlme.sReqDisassociate.u8Reason := reason
    req.mlme.sReqDisassociate.u8SecurityEnable := 0 }

/-- The function `jenusb_disassoc_req`. -/
def jenusb_disassoc_req (h : jenusb_h) (e : Env) (dev : jenusb) (addr : Option ieee802154_addr)
    (reason : Nat) : Int × jenusb :=
  let l := mutex_lock_interruptible e dev
  if l.1 ≠ 0 then l
  else
    let dev := jenusb_disassoc_req_fill h l.2 addr reason
    let p := __jenusb_post_req e dev
    let retval := p.1
    let dev := p.2
    let retval :=
      if retval ≠ 0 then retval
      else if __jenusb_chk_err h dev.cfm then - EIO
      else retval
    (retval, mutex_unlock dev)

/-- The assignments by which `jenusb_start_req` fills the request buffer. -/
def jenusb_start_req_fill (h : jenusb_h) (dev : jenusb) (addr : ieee802154_addr)
    (channel bcn_ord sf_ord pan_coord blx coord_realign : Nat) : jenusb :=
  { dev with
    req.type := h.MAC_SAP_MLME
    req.mlme.u8Type := h.MAC_MLME_REQ_START
    req.mlme.u8ParamLength := h.sizeof_MAC_MlmeReqStart_s
    req.mlme.sReqStart.u16PanId := cpu_to_be16 addr.pan_id
    req.mlme.sReqStart.u8Channel := channel
    req.mlme.sReqStart.u8BeaconOrder := bcn_ord
    req.mlme.sReqStart.u8SuperframeOrder := sf_ord
    req.mlme.sReqStart.u8PanCoordinator := pan_coord
    req.mlme.sReqStart.u8BatteryLifeExt := blx
    req.mlme.sReqStart.u8Realignment := coord_realign }

/-- The state in which `jenusb_start_req` reaches `if (retval) goto err;`: after
`if (pan_coord) retval = jenusb_set_short_addr(net, 0x0000);`, with `retval`
initialised to 0. -/
def jenusb_start_req_coord (h : jenusb_h) (e : Env) (dev : jenusb) (pan_coord : Nat) :
    Int × jenusb :=
  if pan_coord ≠ 0 then jenusb_set_short_addr h e dev 0x0000 else (0, dev)

/-- The function `jenusb_start_req`. A failing `jenusb_set_short_addr` jumps to
the label `err`, which unlocks the mutex and returns. -/
def jenusb_start_req (h : jenusb_h) (e : Env) (dev : jenusb) (addr : ieee802154_addr)
    (channel _page bcn_ord sf_ord pan_coord blx coord_realign : Nat) : Int × jenusb :=
  let s := jenusb_start_req_coord h e dev pan_coord
  if s.1 ≠ 0 then (s.1, mutex_unlock s.2)
  else
    let l := mutex_lock_interruptible e s.2
    if l.1 ≠ 0 then l
    else
      let dev := jenusb_start_req_fill h l.2 addr channel bcn_ord sf_ord pan_coord blx
        coord_realign
      let p := __jenusb_post_req e dev
      let retval := p.1
      let dev := p.2
      let retval :=
        if retval ≠ 0 then retval
        else if __jenusb_chk_err h dev.cfm then - EIO
        else retval
      (retval, mutex_unlock dev)

/-- The assignments by which `jenusb_scan_req` fills the request buffer. -/
def jenusb_scan_req_fill (h : jenusb_h) (dev : jenusb) (type channels duration : Nat) : jenusb :=
  { dev with
    req.type := h.MAC_SAP_MLME
    req.mlme.u8Type := h.MAC_MLME_REQ_SCAN
    req.mlme.u8ParamLength := h.sizeof_MAC_MlmeReqScan_s
    req.mlme.sReqScan.u32ScanChannels := cpu_to_be32 channels
    req.mlme.sReqScan.u8ScanType := type
    req.mlme.sReqScan.u8ScanDuration := duration }

/-- The function `jenusb_scan_req`. On an error status it executes
`return -EIO;` directly, before the `mutex_unlock`. -/
def jenusb_scan_req (h : jenusb_h) (e : Env) (dev : jenusb) (type channels _page duration : Nat) :
    Int × jenusb :=
  let l := mutex_lock_interruptible e dev
  if l.1 ≠ 0 then l
  else
    let dev := jenusb_scan_req_fill h l.2 type channels duration
    let p := __jenusb_post_req e dev
    let retval := p.1
    let dev := p.2
    if retval ≠ 0 then (retval, mutex_unlock dev)
    else if __jenusb_chk_err h dev.cfm then (- EIO, dev)
    else (retval, mutex_unlock dev)

/-! ## Open, close and send -/

/-- The assignments by which `jenusb_net_open` fills the request buffer,
and its `dev->running = true;`. -/
def jenusb_net_open_fill (h : jenusb_h) (dev : jenusb) : jenusb :=
  let dev := { dev with
    req.type := h.MAC_SAP_MLME
    req.mlme.u8Type := h.MAC_MLME_REQ_RESET
    req.mlme.u8ParamLength := h.sizeof_MAC_MlmeReqReset_s
    req.mlme.sReqReset.u8SetDefaultPib := 0 }
  { dev with running := true }

/-- The function `jenusb_net_open`. -/
def jenusb_net_open (h : jenusb_h) (e : Env) (dev : jenusb) : Int × jenusb :=
  let l := mutex_lock_interruptible e dev
  if l.1 ≠ 0 then l
  else
    let dev := jenusb_net_open_fill h l.2
    let p := __jenusb_post_req e dev
    let retval := p.1
    let dev := p.2
    let r : Int × jenusb :=
      if retval ≠ 0 then (retval, dev)
      else if __jenusb_chk_err h dev.cfm then (- EIO, dev)
      else if e.work_alloc = false then (- ENOMEM, { dev with running := false })
      else (retval, { dev with queue_stopped := false, rx_work_queued := dev.rx_work_queued + 1 })
    let retval := r.1
    let dev := r.2
    let dev := if retval ≠ 0 then { dev with running := false } else dev
    (retval, mutex_unlock dev)

/-- One call of an `ieee802154_nl_*` function: its result and the device with
the call recorded. -/
def nl_deliver (e : Env) (dev : jenusb) (c : nl_call) : Int × jenusb :=
  (e.nl_result dev.nl_log.length, { dev with nl_log := dev.nl_log ++ [c] })

/-- The function `jenusb_mcps_ind`. Its locals `skb` and `frame` are never
assigned: `to_skb` receives `skb` by value and keeps the buffer it allocates to
itself. When `to_skb` does not fail, the function goes on to store through `skb`
(`skb->dev = dev;`) and to read through `frame`; a run that dereferences these
uninitialised pointers has no result, which is `none` here. -/
def jenusb_mcps_ind (h : jenusb_h) (e : Env) (dev : jenusb) (ind : MAC_McpsDcfmInd_s) :
    Option jenusb :=
  if ind.u8Type = h.MAC_MCPS_DCFM_PURGE then some dev
  else if ind.u8Type = h.MAC_MCPS_DCFM_DATA then some dev
  else if ind.u8Type = h.MAC_MCPS_IND_DATA then
    let retval := (to_skb ind.sIndData.sFrame e.rx_skb_mem).retval
    if retval < 0 then some { dev with rx_dropped := dev.rx_dropped + 1 }
    else none
  else some dev

/-- The function `jenusb_mlme_ind`; the value `retval` it collects is only
printed. -/
def jenusb_mlme_ind (h : jenusb_h) (e : Env) (dev : jenusb) (ind : MAC_MlmeDcfmInd_s) : jenusb :=
  if ind.u8Type = h.MAC_MLME_DCFM_SCAN then
    (nl_deliver e dev (.scan_confirm ind.sDcfmScan.u8Status ind.sDcfmScan.u8ScanType
      ind.sDcfmScan.u32UnscannedChannels 0
      (if ind.sDcfmScan.u8ScanType = h.MAC_MLME_SCAN_TYPE_ENERGY_DETECT then
        some ind.sDcfmScan.au8EnergyDetect else none))).2
  else if ind.u8Type = h.MAC_MLME_DCFM_ASSOCIATE then
    (nl_deliver e dev (.assoc_confirm (be16_to_cpu ind.sDcfmAssociate.u16AssocShortAddr)
      ind.sDcfmAssociate.u8Status)).2
  else if ind.u8Type = h.MAC_MLME_DCFM_DISASSOCIATE then
    (nl_deliver e dev (.disassoc_confirm ind.sDcfmDisassociate.u8Status)).2
  else if ind.u8Type = h.MAC_MLME_IND_ASSOCIATE then
    (nl_deliver e dev (.assoc_indic
      (ieee802154_addr.store_hwaddr { e.stack_addr with addr_type := IEEE802154_ADDR_LONG }
        ind.sIndAssociate.sDeviceAddr)
      ind.sIndAssociate.u8Capability)).2
  else if ind.u8Type = h.MAC_MLME_IND_DISASSOCIATE then
    (nl_deliver e dev (.disassoc_indic
      (ieee802154_addr.store_hwaddr { e.stack_addr with addr_type := IEEE802154_ADDR_LONG }
        ind.sIndDisassociate.sDeviceAddr)
      ind.sIndDisassociate.u8Reason)).2
  else if ind.u8Type = h.MAC_MLME_IND_BEACON_NOTIFY then
    (nl_deliver e dev (.beacon_indic
      (be16_to_cpu ind.sIndBeacon.sPANdescriptor.sCoord.u16PanId)
      (be16_to_cpu ind.sIndBeacon.sPANdescriptor.sCoord.u16Short))).2
  else if ind.u8Type = h.MAC_MLME_DCFM_GTS ∨ ind.u8Type = h.MAC_MLME_DCFM_POLL
      ∨ ind.u8Type = h.MAC_MLME_DCFM_RX_ENABLE ∨ ind.u8Type = h.MAC_MLME_IND_SYNC_LOSS
      ∨ ind.u8Type = h.MAC_MLME_IND_GTS ∨ ind.u8Type = h.MAC_MLME_IND_COMM_STATUS
      ∨ ind.u8Type = h.MAC_MLME_IND_ORPHAN then
    dev
  else dev

/-- The code at the label `again` of `jenusb_rx_work`: the work is queued anew. -/
def jenusb_rx_work_again (dev : jenusb) : jenusb :=
  { dev with rx_work_queued := dev.rx_work_queued + 1 }

/-- The function `jenusb_rx_work`, one cycle of the pump, for the work item
whose indication buffer holds `ind`: the device and the buffer as the cycle
leaves them, or `none` when `jenusb_mcps_ind` has no result. At the label `err`
the work item is freed and nothing is queued. -/
def jenusb_rx_work (h : jenusb_h) (e : Env) (dev : jenusb) (ind : jenusb_ind) :
    Option (jenusb × jenusb_ind) :=
  if dev.running = false then some (dev, ind)
  else
    let r := e.bulk_in dev.in_reads ind
    let retval := r.1
    let ind := r.2.2
    let dev := { dev with in_reads := dev.in_reads + 1 }
    if retval = 0 then
      let d : Option jenusb :=
        if ind.type = h.MAC_SAP_MCPS then jenusb_mcps_ind h e dev ind.mcps
        else if ind.type = h.MAC_SAP_MLME then some (jenusb_mlme_ind h e dev ind.mlme)
        else some dev
      match d with
      | none => none
      | some dev => some (jenusb_rx_work_again dev, ind)
    else if retval = - ETIMEDOUT then some (jenusb_rx_work_again dev, ind)
    else some (dev, ind)

/-! ## The states the driver can be in -/

/-- The MLME operations of the driver, with their arguments: `reset` is
`jenusb_net_open`, the others are `jenusb_scan_req`, `jenusb_assoc_req`,
`jenusb_disassoc_req`, `jenusb_start_req`, `jenusb_set_panid` and
`jenusb_set_short_addr`. -/
inductive mlme_op where
  | reset
  | scan (type channels page duration : Nat)
  | associate (coord : Option ieee802154_addr) (channel page cap : Nat)
  | disassociate (addr : Option ieee802154_addr) (reason : Nat)
  | start (addr : ieee802154_addr)
      (channel page bcn_ord sf_ord pan_coord blx coord_realign : Nat)
  | set_pan_id (panid : Nat)
  | set_short_addr (short_addr : Nat)

/-- Running an operation is calling the driver function that implements it. -/
def mlme_op.run (h : jenusb_h) (e : Env) (dev : jenusb) : mlme_op → Int × jenusb
  | .reset => jenusb_net_open h e dev
  | .scan type channels page duration => jenusb_scan_req h e dev type channels page duration
  | .associate coord channel page cap => jenusb_assoc_req h e dev coord channel page cap
  | .disassociate addr reason => jenusb_disassoc_req h e dev addr reason
  | .start addr channel page bcn_ord sf_ord pan_coord blx coord_realign =>
    jenusb_start_req h e dev addr channel page bcn_ord sf_ord pan_coord blx coord_realign
  | .set_pan_id panid => jenusb_set_panid h e dev panid
  | .set_short_addr short_addr => jenusb_set_short_addr h e dev short_addr

/-- What the function does before it takes the transaction mutex for its own
request: `jenusb_start_req` first sets the coordinator short address, the other
functions start with the mutex. -/
def mlme_op.before (h : jenusb_h) (e : Env) (dev : jenusb) : mlme_op → Int × jenusb
  | .start _ _ _ _ _ pan_coord _ _ => jenusb_start_req_coord h e dev pan_coord
  | _ => (0, dev)

/-- The `mutex_lock_interruptible` of the function. -/
def mlme_op.lock (h : jenusb_h) (e : Env) (dev : jenusb) (op : mlme_op) : Int × jenusb :=
  mutex_lock_interruptible e (op.before h e dev).2

/-- The request the function fills in, in the state `dev`. -/
def mlme_op.fill (h : jenusb_h) (dev : jenusb) : mlme_op → jenusb
  | .reset => jenusb_net_open_fill h dev
  | .scan type channels _ duration => jenusb_scan_req_fill h dev type channels duration
  | .associate coord channel _ cap => jenusb_assoc_req_fill h dev coord channel cap
  | .disassociate addr reason => jenusb_disassoc_req_fill h dev addr reason
  | .start addr channel _ bcn_ord sf_ord pan_coord blx coord_realign =>
    jenusb_start_req_fill h dev addr channel bcn_ord sf_ord pan_coord blx coord_realign
  | .set_pan_id panid => jenusb_set_panid_fill h dev panid
  | .set_short_addr short_addr => jenusb_set_short_addr_fill h dev short_addr

/-- The exchange of the function: its `jenusb_post_req(dev, req, cfm)`, reached
once the mutex is taken and the request filled in. -/
def mlme_op.exchange (h : jenusb_h) (e : Env) (dev : jenusb) (op : mlme_op) : Int × jenusb :=
  __jenusb_post_req e (op.fill h (op.lock h e dev).2)

def mlme_op.is_reset : mlme_op → Bool
  | .reset => true
  | _ => false

/-- Whether the operation is one of the two PIB writes. -/
def mlme_op.is_set : mlme_op → Bool
  | .set_pan_id _ => true
  | .set_short_addr _ => true
  | _ => false


/-! ## Concrete frames, devices and surroundings used in the runs below -/

def zero_mem : Nat → Nat := fun _ => 0

def zero_addr : MAC_Addr_s := { u8AddrMode := 0, u16PanId := 0, u16Short := 0, sExt := 0 }

def zero_tx_frame : MAC_TxFrameData_s :=
  { sDstAddr := zero_addr, sSrcAddr := zero_addr, u8TxOptions := 0, u8SduLength := 0,
    au8Sdu := zero_mem }

/-- A native frame with no destination address and a short source address. -/
def rx_src_only : MAC_RxFrameData_s :=
  { sDstAddr := zero_addr
    sSrcAddr := { u8AddrMode := 2, u16PanId := 0x1234, u16Short := 0x5678, sExt := 0 }
    u8SecurityUse := 0, u8SduLength := 0, au8Sdu := zero_mem }

/-- A native frame with a short destination, no source and the payload 01 02 03. -/
def rx_short_none_3 : MAC_RxFrameData_s :=
  { sDstAddr := { u8AddrMode := 2, u16PanId := 0x1234, u16Short := 0x5678, sExt := 0 }
    sSrcAddr := zero_addr
    u8SecurityUse := 0, u8SduLength := 3, au8Sdu := fun i => [1, 2, 3].getD i 0 }

/-- A native frame whose destination carries the mode tag 1, which is none of
none (0), short (2) and extended (3). -/
def rx_bad_mode : MAC_RxFrameData_s :=
  { sDstAddr := { u8AddrMode := 1, u16PanId := 0x1234, u16Short := 0x5678, sExt := 0 }
    sSrcAddr := zero_addr
    u8SecurityUse := 0, u8SduLength := 3, au8Sdu := fun i => [1, 2, 3].getD i 0 }

/-- A native frame with two short addresses in the same PAN and a 1-byte payload. -/
def rx_intra_pan : MAC_RxFrameData_s :=
  { sDstAddr := { u8AddrMode := 2, u16PanId := 0x1234, u16Short := 0x0001, sExt := 0 }
    sSrcAddr := { u8AddrMode := 2, u16PanId := 0x1234, u16Short := 0x0002, sExt := 0 }
    u8SecurityUse := 0, u8SduLength := 1, au8Sdu := fun _ => 0xAA }

/-- The data MPDU with destination mode short (PAN 0x1234, address 0x5678 on
the air), source mode none and the payload 01 02 03. -/
def mpdu_short_none_3 : List Nat := [0x01, 0x08, 0x00, 0x34, 0x12, 0x78, 0x56, 0x01, 0x02, 0x03]

def zero_ieee_addr : ieee802154_addr :=
  { addr_type := 0, pan_id := 0, hwaddr := 0, short_addr := 0 }

def zero_req : jenusb_req :=
  { type := 0
    mlme :=
      { u8Type := 0, u8ParamLength := 0
        sReqSet := { u8PibAttribute := 0, u8PibAttributeIndex := 0, u16PanId := 0, u16ShortAddr := 0 }
        sReqAssociate := { sCoord := zero_addr, u8LogicalChan := 0, u8Capability := 0,
                           u8SecurityEnable := 0 }
        sReqDisassociate := { sAddr := zero_addr, u8Reason := 0, u8SecurityEnable := 0 }
        sReqStart := { u16PanId := 0, u8Channel := 0, u8BeaconOrder := 0, u8SuperframeOrder := 0,
                       u8PanCoordinator := 0, u8BatteryLifeExt := 0, u8Realignment := 0 }
        sReqScan := { u32ScanChannels := 0, u8ScanType := 0, u8ScanDuration := 0 }
        sReqReset := { u8SetDefaultPib := 0 } }
    mcps := { u8Type := 0, u8ParamLength := 0, sReqData := { u8Handle := 0, sFrame := zero_tx_frame } } }

/-- A confirmation of the MLME kind with the given sub-opcode and status. -/
def cfm_mlme (u8Type u8Status : Nat) : jenusb_cfm :=
  { type := jennic.MAC_SAP_MLME, u8Type := u8Type, mlme := { u8Status := u8Status },
    mcps := { u8Status := 0, sCfmData := { u8Status := 0 } } }

def zero_cfm : jenusb_cfm :=
  { type := 0, u8Type := 0, mlme := { u8Status := 0 },
    mcps := { u8Status := 0, sCfmData := { u8Status := 0 } } }

/-- The device as `jenusb_probe` leaves it: zeroed private data, mutex free,
not running. -/
def probed_dev : jenusb :=
  { transaction := false, req := zero_req, cfm := zero_cfm, running := false, panid := 0,
    shortaddr := 0, queue_stopped := false, tx_packets := 0, tx_bytes := 0, tx_dropped := 0,
    lock_calls := 0, unlock_unheld := 0, out_log := [], cfm_reads := 0, cfm_wait := 0,
    rx_work_queued := 0, rx_dropped := 0, in_reads := 0, nl_log := [] }

/-- The probed device once it is running. -/
def running_dev : jenusb := { probed_dev with running := true }

/-- Surroundings with `HZ = 1000` in which the mutex is always obtained, every
write succeeds and every read of a confirmation times out. -/
def env_timeout : Env :=
  { HZ := 1000, lock_result := fun _ => 0, bulk_out := fun _ _ => 0,
    intr_in := fun _ _ c => (- ETIMEDOUT, c), work_alloc := true,
    bulk_in := fun _ i => (- ETIMEDOUT, 0, i), rx_skb_mem := some zero_mem,
    nl_result := fun _ => 0, stack_addr := zero_ieee_addr }

/-- Surroundings with `HZ = 1000` in which the mutex is always obtained, every
write succeeds and every read of a confirmation at once delivers `c`. -/
def env_reply (c : jenusb_cfm) (work_alloc : Bool) : Env :=
  { HZ := 1000, lock_result := fun _ => 0, bulk_out := fun _ _ => 0,
    intr_in := fun _ _ _ => (0, c), work_alloc := work_alloc,
    bulk_in := fun _ i => (- ETIMEDOUT, 0, i), rx_skb_mem := some zero_mem,
    nl_result := fun _ => 0, stack_addr := zero_ieee_addr }

/-- Surroundings in which the device rejects every PIB write with the error
status and confirms every other request without error. -/
def env_reject_set : Env :=
  { env_timeout with
    intr_in := fun log _ c =>
      match log.getLast? with
      | some r =>
        if r.mlme.u8Type = jennic.MAC_MLME_REQ_SET then (0, cfm_mlme r.mlme.u8Type 1)
        else (0, cfm_mlme r.mlme.u8Type 0)
      | none => (0, c) }

/-- A running device whose cached short address is 0x1234. -/
def addressed_dev : jenusb := { running_dev with panid := 0x1234, shortaddr := 0x1234 }

/-- A native frame with two short addresses in different PANs and a 1-byte
payload. -/
def rx_inter_pan : MAC_RxFrameData_s :=
  { sDstAddr := { u8AddrMode := 2, u16PanId := 0x1234, u16Short := 0x0001, sExt := 0 }
    sSrcAddr := { u8AddrMode := 2, u16PanId := 0x4321, u16Short := 0x0002, sExt := 0 }
    u8SecurityUse := 0, u8SduLength := 1, au8Sdu := fun _ => 0xAA }

/-- A native frame with a short destination, no source and the security flag
byte 2. -/
def rx_flag_two : MAC_RxFrameData_s :=
  { sDstAddr := { u8AddrMode := 2, u16PanId := 0x1234, u16Short := 0x0001, sExt := 0 }
    sSrcAddr := zero_addr
    u8SecurityUse := 2, u8SduLength := 0, au8Sdu := zero_mem }

/-- A peer address in short mode. -/
def short_peer : ieee802154_addr :=
  { addr_type := 2, pan_id := 0x1234, hwaddr := 0, short_addr := 0x0001 }

def zero_rx_frame : MAC_RxFrameData_s :=
  { sDstAddr := zero_addr, sSrcAddr := zero_addr, u8SecurityUse := 0, u8SduLength := 0,
    au8Sdu := zero_mem }

def zero_ind : jenusb_ind :=
  { type := 0
    mcps := { u8Type := 0, sIndData := { sFrame := zero_rx_frame } }
    mlme :=
      { u8Type := 0
        sDcfmScan := { u8Status := 0, u8ScanType := 0, u32UnscannedChannels := 0,
                       au8EnergyDetect := zero_mem }
        sDcfmAssociate := { u16AssocShortAddr := 0, u8Status := 0 }
        sDcfmDisassociate := { u8Status := 0 }
        sIndAssociate := { sDeviceAddr := 0, u8Capability := 0 }
        sIndDisassociate := { sDeviceAddr := 0, u8Reason := 0 }
        sIndBeacon := { sPANdescriptor := { sCoord := zero_addr } } } }

/-- A data indication carrying the native frame `rx_intra_pan`. -/
def ind_data : jenusb_ind :=
  { zero_ind with
    type := jennic.MAC_SAP_MCPS
    mcps := { u8Type := jennic.MAC_MCPS_IND_DATA, sIndData := { sFrame := rx_intra_pan } } }

/-- A management indication with the sub-opcode 99, which the driver does not know. -/
def ind_unknown : jenusb_ind :=
  { zero_ind with type := jennic.MAC_SAP_MLME, mlme.u8Type := 99 }

/-- Surroundings in which every poll of `dev->in` returns `retval` and leaves
`ind` in the indication buffer, and `dev_alloc_skb` succeeds. -/
def env_rx (retval : Int) (ind : jenusb_ind) : Env :=
  { env_timeout with bulk_in := fun _ _ => (retval, 0, ind) }

/-- A native frame with a short destination, an extended source and the
security flag set. -/
def rx_secured : MAC_RxFrameData_s :=
  { sDstAddr := { u8AddrMode := 2, u16PanId := 0x1234, u16Short := 0x0001, sExt := 0 }
    sSrcAddr := { u8AddrMode := 3, u16PanId := 0x1234, u16Short := 0, sExt := 0x0102030405060708 }
    u8SecurityUse := 1, u8SduLength := 0, au8Sdu := zero_mem }

theorem addr_len_nonneg (a : MAC_Addr_s) : 0 ≤ addr_len a := by
  unfold addr_len
  split_ifs <;> decide

/-- The MPDU `to_skb` builds from `rx_src_only`. -/
theorem rx_src_only_mpdu :
    (to_skb rx_src_only (some zero_mem)).data = [1, 128, 0, 0x12, 0x34, 0x56, 0x78] := by
  decide

/-- C1 (code at the failing input). For the native frame with no destination and
the short source PAN 0x1234 / address 0x5678, `to_skb` produces the 7-byte MPDU
`01 80 00 12 34 56 78`; `from_skb` on these bytes, whatever lies behind them in
memory and whatever the frame buffer held before, returns without parsing the
source field: the source mode tag is short, yet PAN id and short address are the
stale values of the buffer, so from a zeroed buffer the source address differs
from the original one. -/
theorem from_skb_to_skb_source_not_recovered (h : jenusb_h) (rest : Nat → Nat)
    (frame : MAC_TxFrameData_s) :
    (from_skb h (mem_of (to_skb rx_src_only (some zero_mem)).data rest) frame).1
        = frame.u8SduLength
    ∧ (from_skb h (mem_of (to_skb rx_src_only (some zero_mem)).data rest)
        frame).2.sSrcAddr.u8AddrMode = IEEE802154_ADDR_SHORT
    ∧ (from_skb h (mem_of (to_skb rx_src_only (some zero_mem)).data rest)
        frame).2.sSrcAddr.u16PanId = frame.sSrcAddr.u16PanId
    ∧ (from_skb h (mem_of (to_skb rx_src_only (some zero_mem)).data rest)
        frame).2.sSrcAddr.u16Short = frame.sSrcAddr.u16Short
    ∧ (from_skb h (mem_of (to_skb rx_src_only (some zero_mem)).data rest)
        zero_tx_frame).2.sSrcAddr ≠ rx_src_only.sSrcAddr := by
  rw [rx_src_only_mpdu]
  simp [from_skb, mem_of, byte, fc.load, IEEE802154_FC_TYPE_DATA, IEEE802154_ADDR_NONE,
    IEEE802154_ADDR_SHORT, zero_tx_frame, zero_addr, rx_src_only]

/-- The bytes `to_skb` stores through `ptr` for a native frame whose destination
and source are both in short mode (and a buffer was obtained): the 3-byte
header, the 4-byte destination field, then as source field the 2 bytes of the
short address alone when the two PAN ids are equal and the 4 bytes PAN id, short
address when they differ, then the payload. This says nothing yet about how many
of these bytes lie inside the buffer. -/
theorem to_skb_short_source_field (frame : MAC_RxFrameData_s) (m : Nat → Nat)
    (hd : frame.sDstAddr.u8AddrMode = IEEE802154_ADDR_SHORT)
    (hs : frame.sSrcAddr.u8AddrMode = IEEE802154_ADDR_SHORT) :
    (frame.sDstAddr.u16PanId = frame.sSrcAddr.u16PanId →
      (to_skb frame (some m)).data =
          (to_skb_fc frame true m).store ++ [0]
            ++ (store_u16 (be16_to_cpu frame.sDstAddr.u16PanId)
                ++ store_u16 (be16_to_cpu frame.sDstAddr.u16Short))
            ++ store_u16 (be16_to_cpu frame.sSrcAddr.u16Short)
            ++ (List.range frame.u8SduLength).map (fun i => byte frame.au8Sdu i)
        ∧ (store_u16 (be16_to_cpu frame.sSrcAddr.u16Short)).length = 2
        ∧ (to_skb frame (some m)).data.length = 3 + 4 + 2 + frame.u8SduLength)
    ∧ (frame.sDstAddr.u16PanId ≠ frame.sSrcAddr.u16PanId →
      (to_skb frame (some m)).data =
          (to_skb_fc frame false m).store ++ [0]
            ++ (store_u16 (be16_to_cpu frame.sDstAddr.u16PanId)
                ++ store_u16 (be16_to_cpu frame.sDstAddr.u16Short))
            ++ (store_u16 (be16_to_cpu frame.sSrcAddr.u16PanId)
                ++ store_u16 (be16_to_cpu frame.sSrcAddr.u16Short))
            ++ (List.range frame.u8SduLength).map (fun i => byte frame.au8Sdu i)
        ∧ (store_u16 (be16_to_cpu frame.sSrcAddr.u16PanId)
            ++ store_u16 (be16_to_cpu frame.sSrcAddr.u16Short)).length = 4
        ∧ (to_skb frame (some m)).data.length = 3 + 4 + 4 + frame.u8SduLength) := by
  have h1 : ¬ (addr_len frame.sDstAddr < 0 ∨ addr_len frame.sSrcAddr < 0) := by
    have := addr_len_nonneg frame.sDstAddr
    have := addr_len_nonneg frame.sSrcAddr
    omega
  constructor
  · intro hp
    have hb : (frame.sDstAddr.u16PanId == frame.sSrcAddr.u16PanId) = true := by simp [hp]
    simp [to_skb, h1, to_skb_dst, to_skb_src, hd, hs, hb, IEEE802154_ADDR_SHORT,
      IEEE802154_ADDR_NONE, store_u16, fc.store]
    omega
  · intro hp
    have hb : (frame.sDstAddr.u16PanId == frame.sSrcAddr.u16PanId) = false := by simp [hp]
    simp [to_skb, h1, to_skb_dst, to_skb_src, hd, hs, hb, IEEE802154_ADDR_SHORT,
      IEEE802154_ADDR_NONE, store_u16, fc.store]
    omega

/-- The stores at `rx_intra_pan`: both modes short, equal PAN ids, and
3 + 4 + 2 + 1 bytes stored. -/
theorem to_skb_short_source_field_witness :
    rx_intra_pan.sDstAddr.u8AddrMode = IEEE802154_ADDR_SHORT
    ∧ rx_intra_pan.sSrcAddr.u8AddrMode = IEEE802154_ADDR_SHORT
    ∧ (to_skb rx_intra_pan (some zero_mem)).data.length = 3 + 4 + 2 + 1 :=
  ⟨rfl, rfl, ((to_skb_short_source_field rx_intra_pan zero_mem rfl rfl).1 rfl).2.2⟩

/-- For every native frame with two short addresses, `to_skb` returns, and gives
the buffer, the length 7 + payload length, while it stores at least 9 + payload
length bytes: the MPDU ends 2 or 4 bytes before the end of what was stored. -/
theorem to_skb_short_mpdu_length (frame : MAC_RxFrameData_s) (m : Nat → Nat)
    (hd : frame.sDstAddr.u8AddrMode = IEEE802154_ADDR_SHORT)
    (hs : frame.sSrcAddr.u8AddrMode = IEEE802154_ADDR_SHORT) :
    (to_skb frame (some m)).retval = 7 + frame.u8SduLength
    ∧ (to_skb frame (some m)).mpdu.length = 7 + frame.u8SduLength
    ∧ 9 + frame.u8SduLength ≤ (to_skb frame (some m)).data.length := by
  have hlen := to_skb_short_source_field frame m hd hs
  have h1 : ¬ (addr_len frame.sDstAddr < 0 ∨ addr_len frame.sSrcAddr < 0) := by
    have := addr_len_nonneg frame.sDstAddr
    have := addr_len_nonneg frame.sSrcAddr
    omega
  have hr : (to_skb frame (some m)).retval = 7 + frame.u8SduLength := by
    simp [to_skb, h1, addr_len, hd, hs, IEEE802154_ADDR_SHORT, sizeof_fc, sizeof_seq]
    omega
  have hl : 9 + frame.u8SduLength ≤ (to_skb frame (some m)).data.length := by
    by_cases hp : frame.sDstAddr.u16PanId = frame.sSrcAddr.u16PanId
    · have := (hlen.1 hp).2.2; omega
    · have := (hlen.2 hp).2.2; omega
  refine ⟨hr, ?_, hl⟩
  simp only [to_skb_result.mpdu, hr, List.length_take]
  have : ((7 : Int) + (frame.u8SduLength : Int)).toNat = 7 + frame.u8SduLength := by omega
  rw [this]
  omega

/-- C4 (code at the failing inputs). For the frame with two short addresses in
one PAN and a 1-byte payload, `to_skb` stores 10 bytes, the 2-byte source field
`00 02` among them, but sizes the buffer at 8: the MPDU is header, destination
field and the first byte alone of the source field. For the frame with two
short addresses in different PANs it stores 12 bytes, the 4-byte source field
`43 21 00 02` among them, and the MPDU of 8 bytes again holds only the first
byte of the source field. -/
theorem to_skb_mpdu_cuts_source_field :
    rx_intra_pan.sDstAddr.u8AddrMode = IEEE802154_ADDR_SHORT
    ∧ rx_intra_pan.sSrcAddr.u8AddrMode = IEEE802154_ADDR_SHORT
    ∧ rx_intra_pan.sDstAddr.u16PanId = rx_intra_pan.sSrcAddr.u16PanId
    ∧ (to_skb rx_intra_pan (some zero_mem)).retval = 8
    ∧ (to_skb rx_intra_pan (some zero_mem)).data
        = [0x41, 0x88, 0x00, 0x12, 0x34, 0x00, 0x01, 0x00, 0x02, 0xAA]
    ∧ (to_skb rx_intra_pan (some zero_mem)).mpdu
        = [0x41, 0x88, 0x00, 0x12, 0x34, 0x00, 0x01, 0x00]
    ∧ rx_inter_pan.sDstAddr.u8AddrMode = IEEE802154_ADDR_SHORT
    ∧ rx_inter_pan.sSrcAddr.u8AddrMode = IEEE802154_ADDR_SHORT
    ∧ rx_inter_pan.sDstAddr.u16PanId ≠ rx_inter_pan.sSrcAddr.u16PanId
    ∧ (to_skb rx_inter_pan (some zero_mem)).retval = 8
    ∧ (to_skb rx_inter_pan (some zero_mem)).data
        = [0x01, 0x88, 0x00, 0x12, 0x34, 0x00, 0x01, 0x43, 0x21, 0x00, 0x02, 0xAA]
    ∧ (to_skb rx_inter_pan (some zero_mem)).mpdu
        = [0x01, 0x88, 0x00, 0x12, 0x34, 0x00, 0x01, 0x43] := by
  decide

/-- C5 (code at the failing input). On the data MPDU with destination mode
short, source mode none and payload 01 02 03, `from_skb` returns the length the
frame buffer held before the call and leaves that length in place (3 only if it
was 3 already); it reads a source field of 4 bytes although the source mode is
none, taking the payload bytes 01 02 as source PAN id; and the payload it copies
starts behind the end of the MPDU. -/
theorem from_skb_payload_short_none (h : jenusb_h) (rest : Nat → Nat)
    (frame : MAC_TxFrameData_s) :
    (from_skb h (mem_of mpdu_short_none_3 rest) frame).1 = frame.u8SduLength
    ∧ (from_skb h (mem_of mpdu_short_none_3 rest) frame).2.u8SduLength = frame.u8SduLength
    ∧ (from_skb h (mem_of mpdu_short_none_3 rest) frame).2.sSrcAddr.u8AddrMode
        = IEEE802154_ADDR_NONE
    ∧ (from_skb h (mem_of mpdu_short_none_3 rest) frame).2.sSrcAddr.u16PanId = 0x0102
    ∧ (∀ i, i < frame.u8SduLength →
        (from_skb h (mem_of mpdu_short_none_3 rest) frame).2.au8Sdu i = byte rest (i + 1))
    ∧ (from_skb h (mem_of mpdu_short_none_3 rest) zero_tx_frame).1 = 0 := by
  simp [from_skb, mem_of, mpdu_short_none_3, byte, fc.load, IEEE802154_FC_TYPE_DATA,
    IEEE802154_ADDR_NONE, IEEE802154_ADDR_SHORT, zero_tx_frame, cpu_to_be16, swab16, load_u16]
  intro i hi
  have h10 : ¬ (11 + i < 10) := by omega
  have h11 : 11 + i - 10 = i + 1 := by omega
  simp [hi, h10, h11]

/-- C6 (code at the failing input). For the native frame with a short
destination, no source and a 3-byte payload, `to_skb` sizes the buffer at, and
returns, 8, while it stores 3 + 4 + 0 + 3 = 10 bytes. -/
theorem to_skb_length_short_none :
    (to_skb rx_short_none_3 (some zero_mem)).retval = 8
    ∧ (to_skb rx_short_none_3 (some zero_mem)).data.length = 10
    ∧ (to_skb rx_short_none_3 (some zero_mem)).data
        = [0x01, 0x08, 0x00, 0x12, 0x34, 0x56, 0x78, 0x01, 0x02, 0x03] := by
  decide

/-- The function `to_skb` never returns `-EINVAL`: `addr_len` is never negative. -/
theorem to_skb_never_EINVAL (frame : MAC_RxFrameData_s) (skb_mem : Option (Nat → Nat)) :
    (to_skb frame skb_mem).retval ≠ - EINVAL := by
  have h1 : ¬ (addr_len frame.sDstAddr < 0 ∨ addr_len frame.sSrcAddr < 0) := by
    have := addr_len_nonneg frame.sDstAddr
    have := addr_len_nonneg frame.sSrcAddr
    omega
  have hd := addr_len_nonneg frame.sDstAddr
  have hs := addr_len_nonneg frame.sSrcAddr
  cases skb_mem with
  | none => simp [to_skb, h1, ENOMEM, EINVAL]
  | some m =>
    simp only [to_skb, h1, if_false, sizeof_fc, sizeof_seq, EINVAL]
    omega

/-- C7 (code at the failing input). For the native frame whose destination mode
tag is 1, `to_skb` does not fail: it returns 6 and stores an MPDU of a header
with destination mode 1 followed by the payload. -/
theorem to_skb_bad_mode_accepted :
    (to_skb rx_bad_mode (some zero_mem)).retval = 6
    ∧ (to_skb rx_bad_mode (some zero_mem)).data = [0x01, 0x04, 0x00, 0x01, 0x02, 0x03] := by
  decide

/-! ## Theorems: transaction engine -/

/-- The read loop changes nothing but the confirm buffer and the read trace. -/
theorem cfm_loop_frame (e : Env) : ∀ (n : Nat) (dev : jenusb),
    (cfm_loop e n dev).2 = { dev with
      cfm := (cfm_loop e n dev).2.cfm
      cfm_reads := (cfm_loop e n dev).2.cfm_reads
      cfm_wait := (cfm_loop e n dev).2.cfm_wait } := by
  intro n
  induction n with
  | zero => intro dev; simp [cfm_loop, cfm_read]
  | succ n ih =>
    intro dev
    simp only [cfm_loop]
    split_ifs with ht
    · rw [ih]; simp [cfm_read]
    · simp [cfm_read]

/-- Anything that does not depend on the confirm buffer and the transport
trace is the same before and after `__jenusb_post_req`. -/
theorem post_req_keeps {α : Type} (f : jenusb → α)
    (hf : ∀ (d : jenusb) l c r w,
      f { d with out_log := l, cfm := c, cfm_reads := r, cfm_wait := w } = f d)
    (e : Env) (dev : jenusb) : f (__jenusb_post_req e dev).2 = f dev := by
  simp only [__jenusb_post_req]
  split_ifs
  · rfl
  · exact hf dev _ dev.cfm dev.cfm_reads dev.cfm_wait
  all_goals
    show f (cfm_loop e RETRIES _).2 = f dev
    rw [cfm_loop_frame]
    exact hf dev _ _ _ _

/-- The read loop entered with `n` retries left issues at most `n + 1` reads. -/
theorem cfm_loop_reads_le (e : Env) : ∀ (n : Nat) (dev : jenusb),
    (cfm_loop e n dev).2.cfm_reads ≤ dev.cfm_reads + (n + 1) := by
  intro n
  induction n with
  | zero => intro dev; simp [cfm_loop, cfm_read]
  | succ n ih =>
    intro dev
    simp only [cfm_loop]
    split_ifs with ht
    · have := ih (cfm_read e dev).2
      simp only [cfm_read] at this ⊢
      omega
    · simp [cfm_read]

/-- One call of `__jenusb_post_req` issues at most `RETRIES + 1 = 6` reads. -/
theorem post_req_reads_le (e : Env) (dev : jenusb) :
    (__jenusb_post_req e dev).2.cfm_reads ≤ dev.cfm_reads + 6 := by
  simp only [__jenusb_post_req]
  split_ifs
  · simp
  · simp
  all_goals
    show (cfm_loop e RETRIES _).2.cfm_reads ≤ dev.cfm_reads + 6
    exact cfm_loop_reads_le e RETRIES _

/-- C2 (the claim as stated fails). A running device sends a PIB-set request
(tag MLME, sub-opcode 7) and the transport delivers a confirmation with tag
MLME and sub-opcode 6: `__jenusb_post_req` returns 0 and leaves that
confirmation in the buffer. -/
theorem post_req_accepts_other_subopcode :
    (__jenusb_post_req (env_reply (cfm_mlme 6 0) true)
        (jenusb_set_panid_fill jennic running_dev 0x1234)).1 = 0
    ∧ (__jenusb_post_req (env_reply (cfm_mlme 6 0) true)
        (jenusb_set_panid_fill jennic running_dev 0x1234)).2.cfm.type
      = (__jenusb_post_req (env_reply (cfm_mlme 6 0) true)
        (jenusb_set_panid_fill jennic running_dev 0x1234)).2.req.type
    ∧ (__jenusb_post_req (env_reply (cfm_mlme 6 0) true)
        (jenusb_set_panid_fill jennic running_dev 0x1234)).2.req.subop jennic = 7
    ∧ (__jenusb_post_req (env_reply (cfm_mlme 6 0) true)
        (jenusb_set_panid_fill jennic running_dev 0x1234)).2.cfm.u8Type = 6 := by
  decide

/-- C2 (amended). For every request and every transport behaviour, whenever
`__jenusb_post_req` returns 0, the confirmation it leaves in the confirm buffer
has the same top-level tag as the request (which it leaves untouched); hence a
confirmation with another tag makes it return an error. -/
theorem post_req_success_type_match (e : Env) (dev : jenusb)
    (h0 : (__jenusb_post_req e dev).1 = 0) :
    (__jenusb_post_req e dev).2.cfm.type = dev.req.type
    ∧ (__jenusb_post_req e dev).2.req = dev.req := by
  have hreq : (__jenusb_post_req e dev).2.req = dev.req :=
    post_req_keeps (fun d => d.req) (fun _ _ _ _ _ => rfl) e dev
  refine ⟨?_, hreq⟩
  rw [← hreq]
  revert h0
  simp only [__jenusb_post_req]
  split_ifs with h1 h2 h3 h4
  · intro h; simp [ENETDOWN] at h
  · intro h; exact absurd h h2
  · intro h; exact absurd h h3
  · intro h; simp [ENETDOWN, EIO] at h
  · intro _; exact not_not.mp h4

/-- C2 (amended) at a run in which the transport answers the PIB-set request
with a confirmation of the same tag. -/
theorem post_req_success_type_match_witness :
    (__jenusb_post_req (env_reply (cfm_mlme 7 0) true)
        (jenusb_set_panid_fill jennic running_dev 0x1234)).1 = 0
    ∧ (__jenusb_post_req (env_reply (cfm_mlme 7 0) true)
        (jenusb_set_panid_fill jennic running_dev 0x1234)).2.cfm.type
      = (jenusb_set_panid_fill jennic running_dev 0x1234).req.type :=
  ⟨by decide,
   (post_req_success_type_match (env_reply (cfm_mlme 7 0) true)
      (jenusb_set_panid_fill jennic running_dev 0x1234) (by decide)).1⟩

/-- A confirmation read successfully whose tag differs from the request's makes
`__jenusb_post_req` return `-EIO`. -/
theorem post_req_type_mismatch (e : Env) (dev : jenusb) (hr : dev.running = true)
    (hw : e.bulk_out dev.out_log dev.req = 0)
    (hl : (cfm_loop e RETRIES { dev with out_log := dev.out_log ++ [dev.req] }).1 = 0)
    (ht : (cfm_loop e RETRIES { dev with out_log := dev.out_log ++ [dev.req] }).2.cfm.type
      ≠ dev.req.type) :
    (__jenusb_post_req e dev).1 = - EIO := by
  have hq : (cfm_loop e RETRIES { dev with out_log := dev.out_log ++ [dev.req] }).2.req
      = dev.req := by
    rw [cfm_loop_frame]
  simp only [__jenusb_post_req]
  rw [if_neg (by simp [hr]), if_neg (by simp [hw]), if_neg (by simp [hl]),
    if_pos (by rw [hq]; exact ht)]

/-- C8 (code at the failing input). With `HZ = 1000` and a transport on which
every read of the confirmation times out, one call of `__jenusb_post_req` on a
running device issues 6 reads, each with the timeout 100, so the timeouts add up
to 600 while the budget `HZ/2` is 500; it then returns `-ETIMEDOUT`. -/
theorem post_req_six_reads :
    (__jenusb_post_req env_timeout running_dev).1 = - ETIMEDOUT
    ∧ (__jenusb_post_req env_timeout running_dev).2.cfm_reads = 6
    ∧ (__jenusb_post_req env_timeout running_dev).2.cfm_wait = 600
    ∧ env_timeout.HZ / 2 = 500 := by
  decide

/-! ## Theorems: MLME operations -/

/-- C3 (code at the failing input). On the probed device, which is not running
and whose zeroed confirm buffer does not hold the error status,
`jenusb_set_panid(0x1234)` and `jenusb_set_short_addr(0x0001)` fail with
`-ENETDOWN` without writing anything to the transport, and nevertheless store
the new value in the cache, which held 0 before. -/
theorem set_pib_caches_on_failed_exchange :
    probed_dev.panid = 0 ∧ probed_dev.shortaddr = 0
    ∧ (jenusb_set_panid jennic env_timeout probed_dev 0x1234).1 = - ENETDOWN
    ∧ (jenusb_set_panid jennic env_timeout probed_dev 0x1234).2.out_log.length = 0
    ∧ jenusb_get_pan_id (jenusb_set_panid jennic env_timeout probed_dev 0x1234).2 = 0x1234
    ∧ (jenusb_set_short_addr jennic env_timeout probed_dev 0x0001).1 = - ENETDOWN
    ∧ (jenusb_set_short_addr jennic env_timeout probed_dev 0x0001).2.out_log.length = 0
    ∧ jenusb_get_short_addr (jenusb_set_short_addr jennic env_timeout probed_dev 0x0001).2
        = 0x0001 := by
  decide

/-- C9 (the claim as stated fails). Reset: the exchange succeeds and the status
is 0, not the error status, but the work item cannot be allocated and
`jenusb_net_open` returns `-ENOMEM`. PIB write: the exchange succeeds and the
status is the error status, and `jenusb_set_panid` returns 0. -/
theorem mlme_status_not_always_reported :
    (mlme_op.reset.exchange jennic (env_reply (cfm_mlme 4 0) false) probed_dev).1 = 0
    ∧ (mlme_op.reset.exchange jennic (env_reply (cfm_mlme 4 0) false)
        probed_dev).2.cfm.mlme.u8Status ≠ jennic.MAC_MLME_CFM_ERROR
    ∧ (mlme_op.reset.run jennic (env_reply (cfm_mlme 4 0) false) probed_dev).1 = - ENOMEM
    ∧ ((mlme_op.set_pan_id 0x1234).exchange jennic (env_reply (cfm_mlme 7 1) true)
        running_dev).1 = 0
    ∧ ((mlme_op.set_pan_id 0x1234).exchange jennic (env_reply (cfm_mlme 7 1) true)
        running_dev).2.cfm.mlme.u8Status = jennic.MAC_MLME_CFM_ERROR
    ∧ ((mlme_op.set_pan_id 0x1234).run jennic (env_reply (cfm_mlme 7 1) true)
        running_dev).1 = 0 := by
  decide

/-- C9 (amended). For each MLME operation whose exchange succeeds
(`__jenusb_post_req` returns 0 for the request it filled in): if the
confirmation status is not the error status, the operation returns 0, except
that reset returns `-ENOMEM` when the work item of the indication pump cannot be
allocated; if the status is the error status, every operation other than the
two PIB writes returns `-EIO`. -/
theorem mlme_status_reported (h : jenusb_h) (e : Env) (dev : jenusb) (op : mlme_op)
    (hb : (op.before h e dev).1 = 0) (hl : (op.lock h e dev).1 = 0)
    (hx : (op.exchange h e dev).1 = 0) :
    ((op.exchange h e dev).2.cfm.mlme.u8Status ≠ h.MAC_MLME_CFM_ERROR →
        (op.run h e dev).1 = if op.is_reset = true ∧ e.work_alloc = false then - ENOMEM else 0)
    ∧ ((op.exchange h e dev).2.cfm.mlme.u8Status = h.MAC_MLME_CFM_ERROR → op.is_set = false →
        (op.run h e dev).1 = - EIO) := by
  cases op with
  | reset =>
    simp only [mlme_op.exchange, mlme_op.lock, mlme_op.before, mlme_op.fill] at hl hx ⊢
    by_cases hs : (__jenusb_post_req e (jenusb_net_open_fill h (mutex_lock_interruptible e dev).2)).2.cfm.mlme.u8Status = h.MAC_MLME_CFM_ERROR
    · simp [mlme_op.run, jenusb_net_open, hl, hx, hs, __jenusb_chk_err, mlme_op.is_set]
    · by_cases ha : e.work_alloc = false
      · simp [mlme_op.run, jenusb_net_open, hl, hx, hs, ha, __jenusb_chk_err, mlme_op.is_reset, ENOMEM]
      · simp [mlme_op.run, jenusb_net_open, hl, hx, hs, ha, __jenusb_chk_err, mlme_op.is_reset]
  | scan type channels page duration =>
    simp only [mlme_op.exchange, mlme_op.lock, mlme_op.before, mlme_op.fill] at hl hx ⊢
    by_cases hs : (__jenusb_post_req e (jenusb_scan_req_fill h (mutex_lock_interruptible e dev).2 type channels duration)).2.cfm.mlme.u8Status = h.MAC_MLME_CFM_ERROR
    · simp [mlme_op.run, jenusb_scan_req, hl, hx, hs, __jenusb_chk_err, mlme_op.is_set]
    · simp [mlme_op.run, jenusb_scan_req, hl, hx, hs, __jenusb_chk_err, mlme_op.is_reset]
  | associate coord channel page cap =>
    simp only [mlme_op.exchange, mlme_op.lock, mlme_op.before, mlme_op.fill] at hl hx ⊢
    by_cases hs : (__jenusb_post_req e (jenusb_assoc_req_fill h (mutex_lock_interruptible e dev).2 coord channel cap)).2.cfm.mlme.u8Status = h.MAC_MLME_CFM_ERROR
    · simp [mlme_op.run, jenusb_assoc_req, hl, hx, hs, __jenusb_chk_err, mlme_op.is_set]
    · simp [mlme_op.run, jenusb_assoc_req, hl, hx, hs, __jenusb_chk_err, mlme_op.is_reset]
  | disassociate addr reason =>
    simp only [mlme_op.exchange, mlme_op.lock, mlme_op.before, mlme_op.fill] at hl hx ⊢
    by_cases hs : (__jenusb_post_req e (jenusb_disassoc_req_fill h (mutex_lock_interruptible e dev).2 addr reason)).2.cfm.mlme.u8Status = h.MAC_MLME_CFM_ERROR
    · simp [mlme_op.run, jenusb_disassoc_req, hl, hx, hs, __jenusb_chk_err, mlme_op.is_set]
    · simp [mlme_op.run, jenusb_disassoc_req, hl, hx, hs, __jenusb_chk_err, mlme_op.is_reset]
  | start addr channel page bcn_ord sf_ord pan_coord blx coord_realign =>
    simp only [mlme_op.exchange, mlme_op.lock, mlme_op.before, mlme_op.fill] at hb hl hx ⊢
    by_cases hs : (__jenusb_post_req e (jenusb_start_req_fill h (mutex_lock_interruptible e (jenusb_start_req_coord h e dev pan_coord).2).2 addr channel bcn_ord sf_ord pan_coord blx coord_realign)).2.cfm.mlme.u8Status = h.MAC_MLME_CFM_ERROR
    · simp [mlme_op.run, jenusb_start_req, hb, hl, hx, hs, __jenusb_chk_err, mlme_op.is_set]
    · simp [mlme_op.run, jenusb_start_req, hb, hl, hx, hs, __jenusb_chk_err, mlme_op.is_reset]
  | set_pan_id panid =>
    simp only [mlme_op.exchange, mlme_op.lock, mlme_op.before, mlme_op.fill] at hl hx ⊢
    simp [mlme_op.run, jenusb_set_panid, hl, hx, mlme_op.is_set, mlme_op.is_reset]
  | set_short_addr short_addr =>
    simp only [mlme_op.exchange, mlme_op.lock, mlme_op.before, mlme_op.fill] at hl hx ⊢
    simp [mlme_op.run, jenusb_set_short_addr, hl, hx, mlme_op.is_set, mlme_op.is_reset]

/-- C9 (amended) at a scan whose confirmation carries the error status. -/
theorem mlme_status_reported_witness :
    ((mlme_op.scan 0 0x7fff800 0 5).before jennic (env_reply (cfm_mlme 6 1) true) running_dev).1 = 0
    ∧ ((mlme_op.scan 0 0x7fff800 0 5).lock jennic (env_reply (cfm_mlme 6 1) true) running_dev).1 = 0
    ∧ ((mlme_op.scan 0 0x7fff800 0 5).exchange jennic (env_reply (cfm_mlme 6 1) true)
        running_dev).1 = 0
    ∧ ((mlme_op.scan 0 0x7fff800 0 5).run jennic (env_reply (cfm_mlme 6 1) true) running_dev).1
        = - EIO :=
  ⟨by decide, by decide, by decide,
   (mlme_status_reported jennic (env_reply (cfm_mlme 6 1) true) running_dev
      (mlme_op.scan 0 0x7fff800 0 5) (by decide) (by decide) (by decide)).2 (by decide) rfl⟩

/-- C10 (code at the failing inputs). A scan on a running device whose
confirmation carries the error status returns `-EIO` with the transaction mutex,
free on entry, still held. A coordinator start on the probed device, whose
`jenusb_set_short_addr` step fails with `-ENETDOWN`, returns after one
`mutex_unlock` executed while the mutex was not held. -/
theorem transaction_lock_not_balanced :
    running_dev.transaction = false
    ∧ (jenusb_scan_req jennic (env_reply (cfm_mlme 6 1) true) running_dev 0 0x7fff800 0 5).1
        = - EIO
    ∧ (jenusb_scan_req jennic (env_reply (cfm_mlme 6 1) true) running_dev
        0 0x7fff800 0 5).2.transaction = true
    ∧ probed_dev.transaction = false
    ∧ (jenusb_start_req jennic env_timeout probed_dev
        { addr_type := 2, pan_id := 0x1234, hwaddr := 0, short_addr := 0 }
        11 0 15 15 1 0 0).1 = - ENETDOWN
    ∧ (jenusb_start_req jennic env_timeout probed_dev
        { addr_type := 2, pan_id := 0x1234, hwaddr := 0, short_addr := 0 }
        11 0 15 15 1 0 0).2.unlock_unheld = 1 := by
  decide

/-! ## Theorems: coordinator start, association, send path -/

/-- On a running device `__jenusb_post_req` submits exactly the request in the
buffer. -/
theorem post_req_out_log (e : Env) (dev : jenusb) (hr : dev.running = true) :
    (__jenusb_post_req e dev).2.out_log = dev.out_log ++ [dev.req] := by
  simp only [__jenusb_post_req]
  rw [if_neg (by simp [hr])]
  split_ifs
  · rfl
  all_goals
    show (cfm_loop e RETRIES _).2.out_log = dev.out_log ++ [dev.req]
    rw [cfm_loop_frame]

/-- When the coordinator step of `jenusb_start_req` returns a failure, the
function returns that failure and submits no further request. -/
theorem start_req_aborts_on_failed_step (h : jenusb_h) (e : Env) (dev : jenusb)
    (addr : ieee802154_addr) (channel page bcn_ord sf_ord pan_coord blx coord_realign : Nat)
    (hs : (jenusb_start_req_coord h e dev pan_coord).1 ≠ 0) :
    (jenusb_start_req h e dev addr channel page bcn_ord sf_ord pan_coord blx coord_realign).1
        = (jenusb_start_req_coord h e dev pan_coord).1
    ∧ (jenusb_start_req h e dev addr channel page bcn_ord sf_ord pan_coord blx
        coord_realign).2.out_log = (jenusb_start_req_coord h e dev pan_coord).2.out_log := by
  simp [jenusb_start_req, hs, mutex_unlock]

/-- C11 (code at the failing input). A running device with the cached short
address 0x1234 is started as PAN coordinator; the device answers the
set-short-address(0x0000) request with the error status and the start request
without error. The set-short-address step returns 0 although its confirmation
carries the error status, so `jenusb_start_req` writes the start request after
it and returns 0, and `jenusb_get_short_addr` still yields 0x1234. -/
theorem start_req_after_rejected_short_addr :
    (jenusb_start_req_coord jennic env_reject_set addressed_dev 1).1 = 0
    ∧ (jenusb_start_req_coord jennic env_reject_set addressed_dev 1).2.cfm.mlme.u8Status
        = jennic.MAC_MLME_CFM_ERROR
    ∧ (jenusb_start_req jennic env_reject_set addressed_dev short_peer 11 0 15 15 1 0 0).1 = 0
    ∧ (jenusb_start_req jennic env_reject_set addressed_dev short_peer
        11 0 15 15 1 0 0).2.out_log.map (fun r => r.mlme.u8Type)
        = [jennic.MAC_MLME_REQ_SET, jennic.MAC_MLME_REQ_START]
    ∧ jenusb_get_short_addr (jenusb_start_req jennic env_reject_set addressed_dev short_peer
        11 0 15 15 1 0 0).2 = 0x1234 := by
  decide

/-- C12 (the claim as stated fails). With a peer address in short mode, on a
running device whose transport confirms without error, `jenusb_assoc_req` and
`jenusb_disassoc_req` return 0 and each write one request carrying the mode tag
short. -/
theorem assoc_req_short_peer_written :
    short_peer.addr_type = IEEE802154_ADDR_SHORT
    ∧ (jenusb_assoc_req jennic (env_reply (cfm_mlme 0 0) true) running_dev (some short_peer)
        11 0 0).1 = 0
    ∧ (jenusb_assoc_req jennic (env_reply (cfm_mlme 0 0) true) running_dev (some short_peer)
        11 0 0).2.out_log.map (fun r => (r.mlme.u8Type, r.mlme.sReqAssociate.sCoord.u8AddrMode))
        = [(jennic.MAC_MLME_REQ_ASSOCIATE, IEEE802154_ADDR_SHORT)]
    ∧ (jenusb_disassoc_req jennic (env_reply (cfm_mlme 1 0) true) running_dev (some short_peer)
        1).1 = 0
    ∧ (jenusb_disassoc_req jennic (env_reply (cfm_mlme 1 0) true) running_dev (some short_peer)
        1).2.out_log.map (fun r => (r.mlme.u8Type, r.mlme.sReqDisassociate.sAddr.u8AddrMode))
        = [(jennic.MAC_MLME_REQ_DISASSOCIATE, IEEE802154_ADDR_SHORT)] := by
  decide

/-- C12 (amended). For every peer address, of whatever mode, `jenusb_assoc_req`
and `jenusb_disassoc_req` check nothing about the mode: once the mutex is
obtained on a running device, each writes exactly one request to the transport,
the one it filled in, whose address field carries the mode tag of the peer; and
the value each returns is the error of its exchange when the exchange fails,
`-EIO` when the confirmation carries the error status and 0 otherwise, so no
error is returned on account of the mode. -/
theorem assoc_disassoc_any_mode (h : jenusb_h) (e : Env) (dev : jenusb) (addr : ieee802154_addr)
    (channel page cap reason : Nat)
    (hl : (mutex_lock_interruptible e dev).1 = 0) (hr : dev.running = true) :
    (jenusb_assoc_req h e dev (some addr) channel page cap).2.out_log
        = dev.out_log
          ++ [(jenusb_assoc_req_fill h (mutex_lock_interruptible e dev).2 (some addr)
                channel cap).req]
    ∧ (jenusb_assoc_req_fill h (mutex_lock_interruptible e dev).2 (some addr)
          channel cap).req.mlme.sReqAssociate.sCoord.u8AddrMode = addr.addr_type
    ∧ (jenusb_disassoc_req h e dev (some addr) reason).2.out_log
        = dev.out_log
          ++ [(jenusb_disassoc_req_fill h (mutex_lock_interruptible e dev).2 (some addr)
                reason).req]
    ∧ (jenusb_disassoc_req_fill h (mutex_lock_interruptible e dev).2 (some addr)
          reason).req.mlme.sReqDisassociate.sAddr.u8AddrMode = addr.addr_type
    ∧ (jenusb_assoc_req h e dev (some addr) channel page cap).1
        = (if ((mlme_op.associate (some addr) channel page cap).exchange h e dev).1 ≠ 0 then
            ((mlme_op.associate (some addr) channel page cap).exchange h e dev).1
          else if ((mlme_op.associate (some addr) channel page cap).exchange h e
              dev).2.cfm.mlme.u8Status = h.MAC_MLME_CFM_ERROR then - EIO
          else 0)
    ∧ (jenusb_disassoc_req h e dev (some addr) reason).1
        = (if ((mlme_op.disassociate (some addr) reason).exchange h e dev).1 ≠ 0 then
            ((mlme_op.disassociate (some addr) reason).exchange h e dev).1
          else if ((mlme_op.disassociate (some addr) reason).exchange h e
              dev).2.cfm.mlme.u8Status = h.MAC_MLME_CFM_ERROR then - EIO
          else 0) := by
  have hrl : (mutex_lock_interruptible e dev).2.running = true := by
    simp [mutex_lock_interruptible, hr]
  have hol : (mutex_lock_interruptible e dev).2.out_log = dev.out_log := by
    simp [mutex_lock_interruptible]
  refine ⟨?_, ?_, ?_, ?_, ?_, ?_⟩
  · simp only [jenusb_assoc_req, hl]
    simp only [ne_eq, not_true_eq_false, if_false, mutex_unlock]
    rw [post_req_out_log e _ (by simpa [jenusb_assoc_req_fill] using hrl)]
    simp [jenusb_assoc_req_fill, hol]
  · simp only [jenusb_assoc_req_fill, ieee802154_addr_to_jenusb]
    split_ifs <;> rfl
  · simp only [jenusb_disassoc_req, hl]
    simp only [ne_eq, not_true_eq_false, if_false, mutex_unlock]
    rw [post_req_out_log e _ (by simpa [jenusb_disassoc_req_fill] using hrl)]
    simp [jenusb_disassoc_req_fill, hol]
  · simp only [jenusb_disassoc_req_fill, ieee802154_addr_to_jenusb]
    split_ifs <;> rfl
  · simp only [jenusb_assoc_req, hl, mlme_op.exchange, mlme_op.lock, mlme_op.before,
      mlme_op.fill, __jenusb_chk_err]
    split_ifs <;> simp_all
  · simp only [jenusb_disassoc_req, hl, mlme_op.exchange, mlme_op.lock, mlme_op.before,
      mlme_op.fill, __jenusb_chk_err]
    split_ifs <;> simp_all

/-- C12 (amended) at a short-mode peer: one request is written. -/
theorem assoc_disassoc_any_mode_witness :
    (mutex_lock_interruptible (env_reply (cfm_mlme 0 0) true) running_dev).1 = 0
    ∧ running_dev.running = true
    ∧ short_peer.addr_type = IEEE802154_ADDR_SHORT
    ∧ (jenusb_assoc_req jennic (env_reply (cfm_mlme 0 0) true) running_dev (some short_peer)
        11 0 0).2.out_log.length = 1 :=
  ⟨by decide, rfl, rfl, by
    rw [(assoc_disassoc_any_mode jennic (env_reply (cfm_mlme 0 0) true) running_dev short_peer
      11 0 0 0 (by decide) rfl).1]
    rfl⟩

/-- C14 (the claim as stated fails). For the native frame with a short
destination, no source and the security flag byte 2 (set, as any non-zero value),
the frame control field of the MPDU has the security-enabled bit 0: the 1-bit
field keeps only the lowest bit of the flag byte. -/
theorem to_skb_security_flag_two :
    rx_flag_two.sDstAddr.u8AddrMode = IEEE802154_ADDR_SHORT
    ∧ rx_flag_two.sSrcAddr.u8AddrMode = IEEE802154_ADDR_NONE
    ∧ rx_flag_two.u8SecurityUse = 2
    ∧ (to_skb rx_flag_two (some zero_mem)).data = [0x01, 0x08, 0x00, 0x12, 0x34, 0x00, 0x01]
    ∧ (fc.load ((to_skb rx_flag_two (some zero_mem)).data.getD 0 0)
        ((to_skb rx_flag_two (some zero_mem)).data.getD 1 0)).sec_enable = 0 := by
  decide

/-- C14 (amended). For every native frame whose address modes are none, short
or extended (and a buffer was obtained), the first two bytes of the MPDU
`to_skb` writes, read as frame control field, hold frame type data, in the
security-enabled bit the lowest bit of the security flag byte (the flag itself
when it is 0 or 1), frame-pending 0, ack-required 0 and the two mode tags in the
addressing-mode fields; the third byte, the sequence number, is 0. -/
theorem to_skb_frame_control (frame : MAC_RxFrameData_s) (m : Nat → Nat)
    (hd : frame.sDstAddr.u8AddrMode = IEEE802154_ADDR_NONE
      ∨ frame.sDstAddr.u8AddrMode = IEEE802154_ADDR_SHORT
      ∨ frame.sDstAddr.u8AddrMode = IEEE802154_ADDR_LONG)
    (hs : frame.sSrcAddr.u8AddrMode = IEEE802154_ADDR_NONE
      ∨ frame.sSrcAddr.u8AddrMode = IEEE802154_ADDR_SHORT
      ∨ frame.sSrcAddr.u8AddrMode = IEEE802154_ADDR_LONG) :
    3 ≤ (to_skb frame (some m)).data.length
    ∧ (fc.load ((to_skb frame (some m)).data.getD 0 0)
        ((to_skb frame (some m)).data.getD 1 0)).frame_type = IEEE802154_FC_TYPE_DATA
    ∧ (fc.load ((to_skb frame (some m)).data.getD 0 0)
        ((to_skb frame (some m)).data.getD 1 0)).sec_enable = frame.u8SecurityUse % 2
    ∧ (frame.u8SecurityUse ≤ 1 →
        (fc.load ((to_skb frame (some m)).data.getD 0 0)
          ((to_skb frame (some m)).data.getD 1 0)).sec_enable = frame.u8SecurityUse)
    ∧ (fc.load ((to_skb frame (some m)).data.getD 0 0)
        ((to_skb frame (some m)).data.getD 1 0)).fr_pending = 0
    ∧ (fc.load ((to_skb frame (some m)).data.getD 0 0)
        ((to_skb frame (some m)).data.getD 1 0)).ack_required = 0
    ∧ (fc.load ((to_skb frame (some m)).data.getD 0 0)
        ((to_skb frame (some m)).data.getD 1 0)).da_addr_mode = frame.sDstAddr.u8AddrMode
    ∧ (fc.load ((to_skb frame (some m)).data.getD 0 0)
        ((to_skb frame (some m)).data.getD 1 0)).sa_addr_mode = frame.sSrcAddr.u8AddrMode
    ∧ (to_skb frame (some m)).data.getD 2 0 = 0 := by
  have h1 : ¬ (addr_len frame.sDstAddr < 0 ∨ addr_len frame.sSrcAddr < 0) := by
    have := addr_len_nonneg frame.sDstAddr
    have := addr_len_nonneg frame.sSrcAddr
    omega
  have hdata : ∃ tail, (to_skb frame (some m)).data =
      ((to_skb_fc frame (frame.sDstAddr.u16PanId == frame.sSrcAddr.u16PanId) m).store.getD 0 0)
        :: ((to_skb_fc frame (frame.sDstAddr.u16PanId == frame.sSrcAddr.u16PanId) m).store.getD 1 0)
        :: 0 :: tail := by
    refine ⟨to_skb_dst frame
      ++ to_skb_src frame (frame.sDstAddr.u16PanId == frame.sSrcAddr.u16PanId)
      ++ (List.range frame.u8SduLength).map (fun i => byte frame.au8Sdu i), ?_⟩
    simp [to_skb, h1, fc.store]
  obtain ⟨tail, ht⟩ := hdata
  rw [ht]
  simp only [List.length_cons, List.getD_cons_zero, List.getD_cons_succ, fc.store, fc.load,
    to_skb_fc, IEEE802154_FC_TYPE_DATA]
  simp only [IEEE802154_ADDR_NONE, IEEE802154_ADDR_SHORT, IEEE802154_ADDR_LONG] at hd hs
  refine ⟨by omega, by omega, by omega, fun _ => by omega, by omega, by omega, by omega,
    by omega, trivial⟩

/-- C14 (amended) at `rx_secured`: destination mode short, source mode extended,
security flag 1. -/
theorem to_skb_frame_control_witness :
    rx_secured.sDstAddr.u8AddrMode = IEEE802154_ADDR_SHORT
    ∧ rx_secured.sSrcAddr.u8AddrMode = IEEE802154_ADDR_LONG
    ∧ (fc.load ((to_skb rx_secured (some zero_mem)).data.getD 0 0)
        ((to_skb rx_secured (some zero_mem)).data.getD 1 0)).sec_enable
        = rx_secured.u8SecurityUse
    ∧ (fc.load ((to_skb rx_secured (some zero_mem)).data.getD 0 0)
        ((to_skb rx_secured (some zero_mem)).data.getD 1 0)).sa_addr_mode
        = rx_secured.sSrcAddr.u8AddrMode :=
  ⟨rfl, rfl,
   (to_skb_frame_control rx_secured zero_mem (Or.inr (Or.inl rfl))
      (Or.inr (Or.inr rfl))).2.2.2.1 (by decide),
   (to_skb_frame_control rx_secured zero_mem (Or.inr (Or.inl rfl))
      (Or.inr (Or.inr rfl))).2.2.2.2.2.2.2.1⟩

/-- C16 (code at the failing input). A cycle on a running device whose read
succeeds and delivers a data indication with a frame that `to_skb` accepts (it
returns 8): `jenusb_mcps_ind` goes on through its uninitialised `skb` and
`frame` pointers, so the cycle has no result and the work is not queued anew. -/
theorem rx_work_data_indication_faults :
    running_dev.running = true
    ∧ ((env_rx 0 ind_data).bulk_in running_dev.in_reads zero_ind).1 = 0
    ∧ (to_skb ind_data.mcps.sIndData.sFrame (env_rx 0 ind_data).rx_skb_mem).retval = 8
    ∧ (jenusb_mcps_ind jennic (env_rx 0 ind_data) running_dev ind_data.mcps).isNone = true
    ∧ (jenusb_rx_work jennic (env_rx 0 ind_data) running_dev zero_ind).isNone = true := by
  decide

/-- C17. For every transport behaviour, once `jenusb_net_open` has obtained the
mutex: on return `running` is true if and only if it returned 0; it returns 0
if and only if the reset exchange returned 0, the confirmation does not carry
the error status and the work item was allocated, and then the pump is
scheduled once; on every failing path `running` is false and nothing was
scheduled. -/
theorem net_open_running (h : jenusb_h) (e : Env) (dev : jenusb)
    (hl : (mutex_lock_interruptible e dev).1 = 0) :
    ((jenusb_net_open h e dev).2.running = true ↔ (jenusb_net_open h e dev).1 = 0)
    ∧ ((jenusb_net_open h e dev).1 = 0 ↔
        ((mlme_op.reset.exchange h e dev).1 = 0
          ∧ (mlme_op.reset.exchange h e dev).2.cfm.mlme.u8Status ≠ h.MAC_MLME_CFM_ERROR
          ∧ e.work_alloc = true))
    ∧ ((jenusb_net_open h e dev).1 = 0 →
        (jenusb_net_open h e dev).2.rx_work_queued = dev.rx_work_queued + 1)
    ∧ ((jenusb_net_open h e dev).1 ≠ 0 →
        (jenusb_net_open h e dev).2.running = false
        ∧ (jenusb_net_open h e dev).2.rx_work_queued = dev.rx_work_queued) := by
  have kr : (mlme_op.reset.exchange h e dev).2.running = true :=
    post_req_keeps (fun d => d.running) (fun _ _ _ _ _ => rfl) e _
  have kq : (mlme_op.reset.exchange h e dev).2.rx_work_queued = dev.rx_work_queued :=
    post_req_keeps (fun d => d.rx_work_queued) (fun _ _ _ _ _ => rfl) e _
  simp only [mlme_op.exchange, mlme_op.lock, mlme_op.before, mlme_op.fill] at kr kq ⊢
  by_cases hx : (__jenusb_post_req e (jenusb_net_open_fill h (mutex_lock_interruptible e dev).2)).1 = 0
  · by_cases hs : (__jenusb_post_req e (jenusb_net_open_fill h
        (mutex_lock_interruptible e dev).2)).2.cfm.mlme.u8Status = h.MAC_MLME_CFM_ERROR
    · simp [jenusb_net_open, hl, hx, hs, __jenusb_chk_err, mutex_unlock, kr, kq, EIO]
    · by_cases ha : e.work_alloc = false
      · simp [jenusb_net_open, hl, hx, hs, ha, __jenusb_chk_err, mutex_unlock, kr, kq, ENOMEM]
      · simp [jenusb_net_open, hl, hx, hs, ha, __jenusb_chk_err, mutex_unlock, kr, kq]
  · simp [jenusb_net_open, hl, hx, mutex_unlock, kr, kq]

/-- C17 at an open of the probed device that succeeds. -/
theorem net_open_running_witness :
    (mutex_lock_interruptible (env_reply (cfm_mlme 4 0) true) probed_dev).1 = 0
    ∧ ((jenusb_net_open jennic (env_reply (cfm_mlme 4 0) true) probed_dev).2.running = true ↔
        (jenusb_net_open jennic (env_reply (cfm_mlme 4 0) true) probed_dev).1 = 0)
    ∧ (jenusb_net_open jennic (env_reply (cfm_mlme 4 0) true) probed_dev).1 = 0 :=
  ⟨by decide, (net_open_running jennic (env_reply (cfm_mlme 4 0) true) probed_dev (by decide)).1,
   by decide⟩

/-! ## Theorems: the cached addresses in the states the driver can reach -/

end Jenusb
